import Mathlib

/-!
Verification of the EV data-management preprocessor (`data_preprocessor.py`)
and the PostgreSQL column-type inference (`setup_databases.py`).

The Python code is shallowly embedded: Python strings are Lean `String`s
(modelled as their character lists), Python floats are `PyFloat` — an exact
decimal `Dec` (`num / 10 ^ exp`) plus the special values `inf`, `-inf`,
`nan`; IEEE rounding of decimal literals and overflow of large finite
literals to infinity are not modelled, literals are taken at their exact
value — Python values flowing through the cleaners are `PyVal`, and a CSV
row is an association list from field names to values.  Code that can
raise an exception that the source does not catch is embedded in
`Except PyErr`.  String functions model the ASCII behaviour of Python's
`str.strip`/`str.lower`/`str.upper`/`str.title` (the data processed by the
pipeline is ASCII; Unicode-specific case folding is out of scope).
-/

namespace EVData

/-- Python ASCII whitespace, the characters removed by `str.strip()`. -/
def isPyWs (c : Char) : Bool :=
  c == ' ' || c == '\t' || c == '\n' || c == '\x0b' || c == '\x0c' || c == '\r'

/-- `str.strip()` on a character list: drop whitespace from both ends. -/
def pyStripL (l : List Char) : List Char :=
  ((l.dropWhile isPyWs).reverse.dropWhile isPyWs).reverse

/-- `str.strip()`. -/
def pyStrip (s : String) : String := String.mk (pyStripL s.data)

/-- The control characters removed by `re.sub(r'[\x00-\x1f\x7f-\x9f]', '', …)`
in `clean_string` (ASCII and Latin-1 control characters). -/
def isCtlChar (c : Char) : Bool :=
  c.toNat ≤ 0x1f || (0x7f ≤ c.toNat && c.toNat ≤ 0x9f)

/-- Removal of control characters, `re.sub(r'[\x00-\x1f\x7f-\x9f]', '', s)`. -/
def removeCtl (s : String) : String :=
  String.mk (s.data.filter (fun c => !isCtlChar c))

/-- `str.lower()` (ASCII). -/
def pyLower (s : String) : String := String.mk (s.data.map Char.toLower)

/-- `str.upper()` (ASCII). -/
def pyUpper (s : String) : String := String.mk (s.data.map Char.toUpper)

/-- Helper for `str.title()`: the boolean records whether the previous
character was alphabetic (cased). -/
def pyTitleGo : Bool → List Char → List Char
  | _, [] => []
  | prev, c :: rest =>
    if c.isAlpha then
      (if prev then c.toLower else c.toUpper) :: pyTitleGo true rest
    else
      c :: pyTitleGo false rest

/-- `str.title()` (ASCII): the first letter of every alphabetic run is
upper-cased, the rest lower-cased. -/
def pyTitle (s : String) : String := String.mk (pyTitleGo false s.data)

/-- An exact decimal number `num / 10 ^ exp`: the value domain of Python's
`float(...)` on the literals this pipeline parses.  Kept unnormalized so that
every operation is plain integer arithmetic. -/
structure Dec where
  num : ℤ
  exp : ℕ
  deriving DecidableEq, Repr

/-- The rational value of a `Dec`. -/
def Dec.toRat (d : Dec) : ℚ := (d.num : ℚ) / 10 ^ d.exp

/-- Whether a `Dec` is an integer, i.e. `float_val == int(float_val)`. -/
def Dec.isIntegral (d : Dec) : Bool := d.num.tmod ((10 : ℤ) ^ d.exp) == 0

/-- A Python float: an exact finite decimal or one of the special values. -/
inductive PyFloat where
  | finite (d : Dec)
  | inf
  | negInf
  | nan
  deriving DecidableEq, Repr

/-- The exceptions of interest that the source code does not catch. -/
inductive PyErr where
  | overflowError
  | attributeError
  deriving DecidableEq, Repr

/-- Decidable equality of `Except` results, for evaluating the cleaners on
concrete inputs. -/
instance {ε α : Type} [DecidableEq ε] [DecidableEq α] : DecidableEq (Except ε α) :=
  fun a b =>
    match a, b with
    | .ok x, .ok y =>
      if h : x = y then isTrue (by rw [h]) else isFalse (by simp [h])
    | .error x, .error y =>
      if h : x = y then isTrue (by rw [h]) else isFalse (by simp [h])
    | .ok _, .error _ => isFalse (by simp)
    | .error _, .ok _ => isFalse (by simp)

/-- A Python value as it flows through the cleaners: CSV fields are strings,
re-fed normalized records also carry ints, floats and booleans; `.none` is
Python's `None` (also the result of `dict.get` on a missing key). -/
inductive PyVal where
  | str (s : String)
  | int (n : ℤ)
  | float (f : PyFloat)
  | bool (b : Bool)
  | none
  deriving DecidableEq, Repr

/-- Python truthiness: `bool(v)`. -/
def pyTruthy : PyVal → Bool
  | .str s => !(s == "")
  | .int n => !(n == 0)
  | .float f => match f with
    | .finite d => !(d.num == 0)
    | _ => true
  | .bool b => b
  | .none => false

/-- A raw CSV row / dict: an association list from field names to values. -/
def Row := List (String × PyVal)

/-- `row.get(k)`: the value at `k`, or `None` when the key is missing. -/
def pyGet (row : Row) (k : String) : PyVal :=
  (List.lookup k row).getD .none

/-- Python `a or b`: `a` if truthy, else `b`. -/
def pyOr (a b : PyVal) : PyVal := if pyTruthy a then a else b

/-- Valid digit group with underscores, `[0-9] ( _? [0-9] )*`: what Python's
numeric literals accept between a sign, a dot and an exponent marker. -/
def validUPart (l : List Char) : Bool :=
  (match l with | [] => false | c :: _ => c.isDigit) &&
  (l.getLastD '_').isDigit &&
  l.all (fun c => c.isDigit || c == '_') &&
  (l.zip l.tail).all (fun p => !(p.1 == '_' && p.2 == '_'))

/-- `l = []` or a valid digit group. -/
def uPartOk (l : List Char) : Bool := l.isEmpty || validUPart l

/-- The natural number denoted by the digits of `l` (underscores ignored). -/
def digitsValNat (l : List Char) : ℕ :=
  (l.filter Char.isDigit).foldl (fun a c => a * 10 + (c.toNat - 48)) 0

/-- The decimal denoted by sign `neg`, mantissa digits of value `nd` with `k`
fractional digits, and exponent `e`: `± nd * 10 ^ (e - k)`. -/
def decOfParts (neg : Bool) (nd : ℕ) (k : ℕ) (e : ℤ) : Dec :=
  let d : Dec :=
    match e - (k : ℤ) with
    | .ofNat m => { num := (nd : ℤ) * 10 ^ m, exp := 0 }
    | .negSucc m => { num := (nd : ℤ), exp := m + 1 }
  if neg then { num := -d.num, exp := d.exp } else d

/-- Split a leading sign off a character list: `(is_negative, rest)`. -/
def signSplit (cs : List Char) : Bool × List Char :=
  match cs with
  | c :: t => if c = '+' then (false, t) else if c = '-' then (true, t) else (false, c :: t)
  | [] => (false, [])

/-- Python's `float(s)` on a string: strips whitespace, accepts an optional
sign, the case-insensitive keywords `inf`/`infinity`/`nan`, or a decimal
literal with optional fraction and exponent (underscores between digits
allowed).  Returns `Option.none` on `ValueError`. -/
def parse_float (s : String) : Option PyFloat :=
  let cs := pyStripL s.data
  let sr := signSplit cs
  let neg := sr.1
  let rest := sr.2
  let low := rest.map Char.toLower
  if low = "inf".data ∨ low = "infinity".data then
    some (if neg then .negInf else .inf)
  else if low = "nan".data then
    some .nan
  else
    let me := rest.span (fun c => !(c == 'e' || c == 'E'))
    let mant := me.1
    let expPart := me.2
    let ipf := mant.span (fun c => !(c == '.'))
    let ip := ipf.1
    let fp : List Char := match ipf.2 with | [] => [] | _ :: t => t
    let mantOk := uPartOk ip && uPartOk fp && !(ip.isEmpty && fp.isEmpty)
    let expVal : Option ℤ :=
      match expPart with
      | [] => some 0
      | _ :: t =>
        let se := signSplit t
        if validUPart se.2 then
          some (if se.1 then -(digitsValNat se.2 : ℤ) else (digitsValNat se.2 : ℤ))
        else
          Option.none
    if mantOk then
      match expVal with
      | some e =>
        let nd := digitsValNat (ip ++ fp)
        let k := (fp.filter Char.isDigit).length
        some (.finite (decOfParts neg nd k e))
      | Option.none => Option.none
    else
      Option.none

/-- Python `int(x)` for a finite float: truncation toward zero. -/
def pyTrunc (d : Dec) : ℤ := Int.tdiv d.num ((10 : ℤ) ^ d.exp)

/-- The comparison `f > 0` on a float: `inf > 0` is true, `-inf > 0` and
`nan > 0` are false. -/
def pyGtZero : PyFloat → Bool
  | .finite d => decide (0 < d.num)
  | .inf => true
  | _ => false

/-- The null sentinels of `clean_string`, compared exactly (case-sensitively):
`['', 'NULL', 'null', 'None', 'N/A', 'n/a']`. -/
def stringSentinels : List String := ["", "NULL", "null", "None", "N/A", "n/a"]

/-- `clean_string(value)`.  On a string: `None` when the value is falsy or its
trimmed form is a sentinel; otherwise the trimmed value with control
characters removed, or `None` if that residue is empty.  A truthy non-string
raises `AttributeError` at `value.strip()` (uncaught in the source). -/
def clean_string (v : PyVal) : Except PyErr (Option String) :=
  match v with
  | .str s =>
    if s = "" ∨ pyStrip s ∈ stringSentinels then .ok Option.none
    else
      let cleaned := removeCtl (pyStrip s)
      .ok (if cleaned = "" then Option.none else some cleaned)
  | .none => .ok Option.none
  | .int n => if n = 0 then .ok Option.none else .error .attributeError
  | .float f => if pyTruthy (.float f) then .error .attributeError else .ok Option.none
  | .bool b => if b then .error .attributeError else .ok Option.none

/-- The special cases of `clean_numeric`, matched against the lower-cased
cleaned string. -/
def numericSentinels : List String := ["null", "none", "n/a", "", "nan"]

/-- `str(value).replace('$','').replace(',','').replace('%','').strip()`. -/
def numericCleaned (s : String) : String :=
  pyStrip (String.mk (s.data.filter (fun c => !(c == '$' || c == ',' || c == '%'))))

/-- The string path of `clean_numeric`: clean, test the special cases, then
`int(float(cleaned))` for kind `"int"` (the `except` catches only
`ValueError`/`TypeError`, so `int(float('inf'))` raises an uncaught
`OverflowError`) or `float(cleaned)` otherwise. -/
def clean_numeric_str (s : String) (dataType : String) : Except PyErr (Option PyVal) :=
  let cleaned := numericCleaned s
  if pyLower cleaned ∈ numericSentinels then .ok Option.none
  else
    match parse_float cleaned with
    | Option.none => .ok Option.none
    | some (.finite d) =>
      .ok (some (if dataType = "int" then .int (pyTrunc d) else .float (.finite d)))
    | some .nan =>
      if dataType = "int" then .ok Option.none else .ok (some (.float .nan))
    | some .inf =>
      if dataType = "int" then .error .overflowError else .ok (some (.float .inf))
    | some .negInf =>
      if dataType = "int" then .error .overflowError else .ok (some (.float .negInf))

/-- `clean_numeric(value, data_type)`.  Falsy values give `None` before any
conversion.  For non-string truthy values the pipeline goes through
`str(value)`; since Python guarantees `float(str(x)) == x` for ints and
floats, those cases are embedded by their (derived) results: `str` of a
truthy int parses back to itself, `str` of a float is `'nan'` (a special
case), `'inf'`/`'-inf'`, or a finite literal parsing back to the same value;
`str(True)` = `'True'` fails to parse. -/
def clean_numeric (value : PyVal) (dataType : String) : Except PyErr (Option PyVal) :=
  if pyTruthy value = false then .ok Option.none
  else
    match value with
    | .str s => clean_numeric_str s dataType
    | .int n =>
      .ok (some (if dataType = "int" then .int n else .float (.finite { num := n, exp := 0 })))
    | .float .nan => .ok Option.none
    | .float (.finite d) =>
      .ok (some (if dataType = "int" then .int (pyTrunc d) else .float (.finite d)))
    | .float .inf =>
      if dataType = "int" then .error .overflowError else .ok (some (.float .inf))
    | .float .negInf =>
      if dataType = "int" then .error .overflowError else .ok (some (.float .negInf))
    | .bool _ => .ok Option.none
    | .none => .ok Option.none

/-- `clean_year(value)`: `clean_numeric(value, "int")`, kept only when truthy
and within `[1990, 2030]`. -/
def clean_year (value : PyVal) : Except PyErr (Option ℤ) :=
  match clean_numeric value "int" with
  | .error e => .error e
  | .ok (some (.int y)) =>
    if y ≠ 0 ∧ 1990 ≤ y ∧ y ≤ 2030 then .ok (some y) else .ok Option.none
  | .ok _ => .ok Option.none

/-- The manufacturer standardization map of `standardize_make`. -/
def makeMap : List (String × String) :=
  [("bmw", "BMW"), ("tesla", "Tesla"), ("audi", "Audi"),
   ("mercedes", "Mercedes-Benz"), ("mercedes-benz", "Mercedes-Benz"),
   ("volkswagen", "Volkswagen"), ("vw", "Volkswagen"), ("nissan", "Nissan"),
   ("hyundai", "Hyundai"), ("kia", "Kia"), ("ford", "Ford"),
   ("chevrolet", "Chevrolet"), ("chevy", "Chevrolet"), ("byd", "BYD"),
   ("nio", "NIO"), ("lucid", "Lucid Motors"), ("rivian", "Rivian"),
   ("polestar", "Polestar")]

/-- `standardize_make(make)`: falsy gives `None`; else `clean_string`, then
the lower-cased result is looked up in the map, defaulting to `.title()`. -/
def standardize_make (make : PyVal) : Except PyErr (Option String) :=
  if pyTruthy make = false then .ok Option.none
  else
    match clean_string make with
    | .error e => .error e
    | .ok Option.none => .ok Option.none
    | .ok (some m) =>
      .ok (some ((List.lookup (pyLower m) makeMap).getD (pyTitle m)))

/-- `float(v)` applied to an arbitrary Python value; `Option.none` is the
`ValueError`/`TypeError` that `validate_coordinates` catches. -/
def pyFloatOf : PyVal → Option PyFloat
  | .str s => parse_float s
  | .int n => some (.finite { num := n, exp := 0 })
  | .float f => some f
  | .bool b => some (.finite { num := if b then 1 else 0, exp := 0 })
  | .none => Option.none

/-- The latitude range check `-90 <= lat_f <= 90` (as integer arithmetic on
the exact decimal); `nan` and the infinities compare false. -/
def inRangeLat : PyFloat → Bool
  | .finite d => decide (-90 * 10 ^ d.exp ≤ d.num) && decide (d.num ≤ 90 * 10 ^ d.exp)
  | _ => false

/-- The longitude range check `-180 <= lng_f <= 180`; `nan` and the
infinities compare false. -/
def inRangeLng : PyFloat → Bool
  | .finite d => decide (-180 * 10 ^ d.exp ≤ d.num) && decide (d.num ≤ 180 * 10 ^ d.exp)
  | _ => false

/-- `validate_coordinates(lat, lng)`: parse both (falsy inputs become `None`
without parsing), and return the pair only when both parsed and both are in
range; every other path — a parse exception, a missing side, or a failed
range check — returns `(None, None)`. -/
def validate_coordinates (lat lng : PyVal) : Option PyFloat × Option PyFloat :=
  if pyTruthy lat then
    match pyFloatOf lat with
    | Option.none => (Option.none, Option.none)
    | some lf =>
      if pyTruthy lng then
        match pyFloatOf lng with
        | Option.none => (Option.none, Option.none)
        | some gf =>
          if inRangeLat lf && inRangeLng gf then (some lf, some gf)
          else (Option.none, Option.none)
      else (Option.none, Option.none)
  else (Option.none, Option.none)

/-- A normalized vehicle-population record (`clean_ev_population_data`):
`make` and `model` are mandatory, the other keys are present only when their
raw field cleaned successfully. -/
structure VehicleRecord where
  make : String
  model : String
  model_year : Option ℤ
  electric_vehicle_type : Option String
  electric_range : Option ℤ
  base_msrp : Option PyFloat
  state : Option String
  city : Option String
  county : Option String
  vin_1_10 : Option String
  deriving DecidableEq, Repr

/-- A normalized charging-station record (`clean_charging_stations_data`). -/
structure ChargingRecord where
  latitude : PyFloat
  longitude : PyFloat
  country_code : String
  city : Option String
  power_kw : Option PyFloat
  ports : Option ℤ
  power_class : Option String
  is_fast_dc : Option Bool
  connector_type : Option String
  network : Option String
  status : Option String
  deriving DecidableEq, Repr

/-- A normalized sales record (`clean_ev_sales_data`). -/
structure SalesRecord where
  region : String
  year : ℤ
  parameter : Option String
  value : Option PyFloat
  unit : Option String
  mode : Option String
  powertrain : Option String
  deriving DecidableEq, Repr

/-- The year field of a vehicle row:
`row.get('model_year') or row.get('Model Year') or row.get('year') or row.get('Year')`. -/
def vehicleYearField (row : Row) : PyVal :=
  pyOr (pyOr (pyGet row "model_year") (pyGet row "Model Year"))
       (pyOr (pyGet row "year") (pyGet row "Year"))

/-- The make field of a vehicle row: `row.get('make') or row.get('Make')`. -/
def vehicleMakeField (row : Row) : PyVal := pyOr (pyGet row "make") (pyGet row "Make")

/-- The model field of a vehicle row: `row.get('model') or row.get('Model')`. -/
def vehicleModelField (row : Row) : PyVal := pyOr (pyGet row "model") (pyGet row "Model")

/-- The state field: `row.get('state') or row.get('State')`. -/
def vehicleStateField (row : Row) : PyVal := pyOr (pyGet row "state") (pyGet row "State")

/-- The city field: `row.get('city') or row.get('City')`. -/
def vehicleCityField (row : Row) : PyVal := pyOr (pyGet row "city") (pyGet row "City")

/-- Truthiness of an optional cleaned string, as tested by
`cleaned_row.get(k)` in the final acceptance check. -/
def optTruthy : Option String → Bool
  | some s => !(s == "")
  | Option.none => false

/-- The loop body of `clean_ev_population_data`: clean one raw row, returning
`some` record when it is kept, `Option.none` when it is skipped, and an
error when an uncaught exception escapes (`int(float('inf'))`). -/
def clean_ev_population_row (row : Row) : Except PyErr (Option VehicleRecord) :=
  match standardize_make (vehicleMakeField row) with
  | .error e => .error e
  | .ok mk =>
  match clean_string (vehicleModelField row) with
  | .error e => .error e
  | .ok md =>
  match mk, md with
  | some make, some model =>
    (match clean_year (vehicleYearField row) with
     | .error e => .error e
     | .ok year =>
     match clean_string (pyOr (pyOr (pyGet row "electric_vehicle_type")
         (pyGet row "Electric Vehicle Type")) (pyGet row "EV Type")) with
     | .error e => .error e
     | .ok evType =>
     match clean_numeric (pyOr (pyOr (pyGet row "electric_range")
         (pyGet row "Electric Range")) (pyGet row "range")) "int" with
     | .error e => .error e
     | .ok rng =>
     match clean_numeric (pyOr (pyOr (pyOr (pyGet row "base_msrp")
         (pyGet row "Base MSRP")) (pyGet row "MSRP")) (pyGet row "price")) "float" with
     | .error e => .error e
     | .ok price =>
     match clean_string (vehicleStateField row) with
     | .error e => .error e
     | .ok st =>
     match clean_string (vehicleCityField row) with
     | .error e => .error e
     | .ok ct =>
     match clean_string (pyOr (pyGet row "county") (pyGet row "County")) with
     | .error e => .error e
     | .ok cty =>
     match clean_string (pyOr (pyOr (pyOr (pyGet row "vin_1_10")
         (pyGet row "VIN (1-10)")) (pyGet row "VIN")) (pyGet row "vin")) with
     | .error e => .error e
     | .ok vin =>
       let rec0 : VehicleRecord :=
         { make := make
           model := model
           model_year := year
           electric_vehicle_type := evType
           electric_range :=
             match rng with
             | some (.int n) => if n ≠ 0 ∧ 0 < n then some n else Option.none
             | _ => Option.none
           base_msrp :=
             match price with
             | some (.float f) =>
               if pyTruthy (.float f) && pyGtZero f then some f else Option.none
             | _ => Option.none
           state := st
           city := ct
           county := cty
           vin_1_10 :=
             match vin with
             | some v => if 10 ≤ v.length then some v else Option.none
             | Option.none => Option.none }
       if !(make == "") && !(model == "") && (optTruthy st || optTruthy ct) then
         .ok (some rec0)
       else
         .ok Option.none)
  | _, _ => .ok Option.none

/-- `clean_ev_population_data(raw_data)`: the kept records, in order; an
uncaught exception from any row aborts the whole run. -/
def clean_ev_population_data : List Row → Except PyErr (List VehicleRecord)
  | [] => .ok []
  | r :: rest =>
    match clean_ev_population_row r with
    | .error e => .error e
    | .ok h =>
      match clean_ev_population_data rest with
      | .error e => .error e
      | .ok t => .ok (match h with | some rec0 => rec0 :: t | Option.none => t)

/-- The `is_fast_dc` conversion of `clean_charging_stations_data`:
`None` leaves the key absent, a string is compared (upper-cased) against
`['TRUE', 'YES', '1', 'T']`, and any other value is coerced with `bool()`. -/
def fastDcOf : PyVal → Option Bool
  | .none => Option.none
  | .str s => some (decide (pyUpper s ∈ (["TRUE", "YES", "1", "T"] : List String)))
  | v => some (pyTruthy v)

/-- The loop body of `clean_charging_stations_data`. -/
def clean_charging_stations_row (row : Row) : Except PyErr (Option ChargingRecord) :=
  match validate_coordinates (pyGet row "latitude") (pyGet row "longitude") with
  | (some lat, some lng) =>
    (match clean_string (pyOr (pyGet row "country_code") (pyGet row "country")) with
     | .error e => .error e
     | .ok Option.none => .ok Option.none
     | .ok (some country) =>
     match clean_string (pyGet row "city") with
     | .error e => .error e
     | .ok city =>
     match clean_numeric (pyOr (pyGet row "power_kw") (pyGet row "power")) "float" with
     | .error e => .error e
     | .ok power =>
     match clean_numeric (pyGet row "ports") "int" with
     | .error e => .error e
     | .ok ports =>
     match clean_string (pyGet row "power_class") with
     | .error e => .error e
     | .ok pclass =>
     match clean_string (pyGet row "connector_type") with
     | .error e => .error e
     | .ok connector =>
     match clean_string (pyOr (pyGet row "network") (pyGet row "operator")) with
     | .error e => .error e
     | .ok network =>
     match clean_string (pyGet row "status") with
     | .error e => .error e
     | .ok status =>
       .ok (some
         { latitude := lat
           longitude := lng
           country_code := pyUpper country
           city := city
           power_kw :=
             match power with
             | some (.float f) =>
               if pyTruthy (.float f) && pyGtZero f then some f else Option.none
             | _ => Option.none
           ports :=
             match ports with
             | some (.int n) => if n ≠ 0 ∧ 0 < n then some n else Option.none
             | _ => Option.none
           power_class := pclass
           is_fast_dc := fastDcOf (pyGet row "is_fast_dc")
           connector_type := connector
           network := network
           status := status }))
  | _ => .ok Option.none

/-- `clean_charging_stations_data(raw_data)`. -/
def clean_charging_stations_data : List Row → Except PyErr (List ChargingRecord)
  | [] => .ok []
  | r :: rest =>
    match clean_charging_stations_row r with
    | .error e => .error e
    | .ok h =>
      match clean_charging_stations_data rest with
      | .error e => .error e
      | .ok t => .ok (match h with | some rec0 => rec0 :: t | Option.none => t)

/-- The loop body of `clean_ev_sales_data`: `region` and `year` are mandatory,
the other fields are kept when they clean successfully (`value` under an
`is not None` test, so `0.0` is kept). -/
def clean_ev_sales_row (row : Row) : Except PyErr (Option SalesRecord) :=
  match clean_string (pyOr (pyGet row "region") (pyGet row "country")) with
  | .error e => .error e
  | .ok Option.none => .ok Option.none
  | .ok (some region) =>
  match clean_year (pyGet row "year") with
  | .error e => .error e
  | .ok Option.none => .ok Option.none
  | .ok (some year) =>
  match clean_string (pyOr (pyGet row "parameter") (pyGet row "category")) with
  | .error e => .error e
  | .ok parameter =>
  match clean_numeric (pyGet row "value") "float" with
  | .error e => .error e
  | .ok value =>
  match clean_string (pyGet row "unit") with
  | .error e => .error e
  | .ok unit =>
  match clean_string (pyGet row "mode") with
  | .error e => .error e
  | .ok mode =>
  match clean_string (pyGet row "powertrain") with
  | .error e => .error e
  | .ok powertrain =>
    .ok (some
      { region := region
        year := year
        parameter := parameter
        value := match value with | some (.float f) => some f | _ => Option.none
        unit := unit
        mode := mode
        powertrain := powertrain })

/-- `clean_ev_sales_data(raw_data)`. -/
def clean_ev_sales_data : List Row → Except PyErr (List SalesRecord)
  | [] => .ok []
  | r :: rest =>
    match clean_ev_sales_row r with
    | .error e => .error e
    | .ok h =>
      match clean_ev_sales_data rest with
      | .error e => .error e
      | .ok t => .ok (match h with | some rec0 => rec0 :: t | Option.none => t)

/-- An optional record field mapped back to a row entry. -/
def optEntry (k : String) : Option PyVal → List (String × PyVal)
  | some v => [(k, v)]
  | Option.none => []

/-- A normalized sales record read back as a raw row under the same canonical
field names (absent optional fields leave their keys absent). -/
def sales_record_to_row (r : SalesRecord) : Row :=
  [("region", .str r.region), ("year", .int r.year)] ++
  optEntry "parameter" (r.parameter.map .str) ++
  optEntry "value" (r.value.map .float) ++
  optEntry "unit" (r.unit.map .str) ++
  optEntry "mode" (r.mode.map .str) ++
  optEntry "powertrain" (r.powertrain.map .str)

/-- The Python value of an optional string field read back from a record. -/
def optVal : Option String → PyVal
  | some p => .str p
  | Option.none => .none

/-- The Python value of an optional float field read back from a record. -/
def optFloatVal : Option PyFloat → PyVal
  | some f => .float f
  | Option.none => .none

/-- The Python value of an optional integer field read back from a record. -/
def optIntVal : Option ℤ → PyVal
  | some n => .int n
  | Option.none => .none

/-- The Python value of an optional boolean field read back from a record. -/
def optBoolVal : Option Bool → PyVal
  | some b => .bool b
  | Option.none => .none

/-- A normalized vehicle record read back as a raw row under the same
canonical field names (absent optional fields leave their keys absent). -/
def vehicle_record_to_row (r : VehicleRecord) : Row :=
  [("make", .str r.make), ("model", .str r.model)] ++
  optEntry "model_year" (r.model_year.map .int) ++
  optEntry "electric_vehicle_type" (r.electric_vehicle_type.map .str) ++
  optEntry "electric_range" (r.electric_range.map .int) ++
  optEntry "base_msrp" (r.base_msrp.map .float) ++
  optEntry "state" (r.state.map .str) ++
  optEntry "city" (r.city.map .str) ++
  optEntry "county" (r.county.map .str) ++
  optEntry "vin_1_10" (r.vin_1_10.map .str)

/-- A normalized charging-station record read back as a raw row under the
same canonical field names. -/
def charging_record_to_row (r : ChargingRecord) : Row :=
  [("latitude", .float r.latitude), ("longitude", .float r.longitude),
   ("country_code", .str r.country_code)] ++
  optEntry "city" (r.city.map .str) ++
  optEntry "power_kw" (r.power_kw.map .float) ++
  optEntry "ports" (r.ports.map .int) ++
  optEntry "power_class" (r.power_class.map .str) ++
  optEntry "is_fast_dc" (r.is_fast_dc.map .bool) ++
  optEntry "connector_type" (r.connector_type.map .str) ++
  optEntry "network" (r.network.map .str) ++
  optEntry "status" (r.status.map .str)

/-- The numeric-scan loop of `guess_column_type` over the first 20 non-empty
values: returns `(all_numeric, has_decimal)`.  A `float()` failure or the
`ValueError` of `int(nan)` is caught (`all_numeric = False`, scan stops);
`int(float('inf'))` raises an uncaught `OverflowError`. -/
def guess_check_numeric : List String → Bool → Except PyErr (Bool × Bool)
  | [], hasDec => .ok (true, hasDec)
  | v :: rest, hasDec =>
    match parse_float v with
    | Option.none => .ok (false, hasDec)
    | some f =>
      if '.' ∈ v.data then guess_check_numeric rest true
      else
        match f with
        | .finite d => guess_check_numeric rest (hasDec || !(d.isIntegral))
        | .nan => .ok (false, hasDec)
        | .inf => .error .overflowError
        | .negInf => .error .overflowError

/-- The stripped non-empty sample values `[v.strip() for v in values if v and v.strip()]`. -/
def nonEmptyValues (values : List String) : List String :=
  values.filterMap (fun v => if v ≠ "" ∧ pyStrip v ≠ "" then some (pyStrip v) else Option.none)

/-- `guess_column_type(values)` from `setup_databases.py`. -/
def guess_column_type (values : List String) : Except PyErr String :=
  let ne := nonEmptyValues values
  if ne = [] then .ok "TEXT"
  else
    match guess_check_numeric (ne.take 20) false with
    | .error e => .error e
    | .ok (allNum, hasDec) =>
      if allNum then .ok (if hasDec then "DECIMAL(15,4)" else "INTEGER")
      else
        let maxLen := ((ne.take 50).map String.length).foldl Nat.max 0
        .ok (if maxLen ≤ 50 then "VARCHAR(100)"
             else if maxLen ≤ 150 then "VARCHAR(200)" else "TEXT")

/-- Whether a sample value parses as a (finite) floating-point number, the
reading of the claim under which a `nan` literal counts as non-numeric. -/
def parsesFinite (v : String) : Bool :=
  match parse_float v with
  | some (.finite _) => true
  | _ => false

/-- The claim's decimal marker: the value contains a literal `'.'` or its
float value differs from its truncated-integer value. -/
def decimalMarker (v : String) : Bool :=
  decide ('.' ∈ v.data) ||
  (match parse_float v with
   | some (.finite d) => !(d.isIntegral)
   | _ => false)

/-- Modelled from the claim's wording (spec side of C2): `TEXT` on an empty
sample; `DECIMAL(15,4)`/`INTEGER` when the first 20 non-empty values all
parse as numbers, decimal when any of them carries the decimal marker; else
a `VARCHAR` bucket of the maximum length of the first 50 non-empty values. -/
def spec_guess_column_type (values : List String) : String :=
  let ne := nonEmptyValues values
  if ne = [] then "TEXT"
  else if (ne.take 20).all parsesFinite then
    if (ne.take 20).any decimalMarker then "DECIMAL(15,4)" else "INTEGER"
  else
    let maxLen := ((ne.take 50).map String.length).foldl Nat.max 0
    if maxLen ≤ 50 then "VARCHAR(100)"
    else if maxLen ≤ 150 then "VARCHAR(200)" else "TEXT"

/-- The emitted-record view of a cleaner step: an uncaught exception emits
nothing. -/
def exOpt {α : Type} : Except PyErr (Option α) → Option α
  | .ok v => v
  | .error _ => Option.none

/-- A string that `clean_string` maps to itself: already stripped and not a
null sentinel (every `clean_string` output is additionally non-empty and
control-character free). -/
def stableStr (s : String) : Prop := pyStrip s = s ∧ s ∉ stringSentinels

/-- `stableStr` on an optional field. -/
def stableOptStr : Option String → Prop
  | some s => stableStr s
  | Option.none => True

/-- The end-to-end vehicle example row of the specification. -/
def vehicleExampleRow : Row :=
  [("make", .str "tesla"), ("model", .str "Model 3"),
   ("state", .str "WA"), ("model_year", .str "2021")]

/-- The normalized record the example row yields. -/
def vehicleExampleRecord : VehicleRecord :=
  { make := "Tesla", model := "Model 3", model_year := some 2021,
    electric_vehicle_type := Option.none, electric_range := Option.none,
    base_msrp := Option.none, state := some "WA", city := Option.none,
    county := Option.none, vin_1_10 := Option.none }

/-- A vehicle row whose make/model/state are fine but whose year field is
`"inf"`, driving `int(float('inf'))` into an uncaught `OverflowError`. -/
def vehicleInfRow : Row :=
  [("make", .str "tesla"), ("model", .str "Model 3"),
   ("state", .str "WA"), ("model_year", .str "inf")]

/-- A raw sales row whose value is `"0"`. -/
def salesZeroRawRow : Row :=
  [("region", .str "Europe"), ("year", .str "2020"), ("value", .str "0")]

/-- The normalized record of `salesZeroRawRow`: the zero value is kept. -/
def salesZeroRecord : SalesRecord :=
  { region := "Europe", year := 2020, parameter := Option.none,
    value := some (.finite { num := 0, exp := 0 }), unit := Option.none,
    mode := Option.none, powertrain := Option.none }

/-- What re-cleaning `salesZeroRecord` yields: the zero value is dropped. -/
def salesZeroRecleaned : SalesRecord :=
  { region := "Europe", year := 2020, parameter := Option.none,
    value := Option.none, unit := Option.none, mode := Option.none,
    powertrain := Option.none }

/-- A raw sales row with the negative value `"-5"`. -/
def salesNegRow : Row :=
  [("region", .str "Europe"), ("year", .str "2020"), ("value", .str "-5")]

/-- The normalized record of `salesNegRow`. -/
def salesNegRecord : SalesRecord :=
  { region := "Europe", year := 2020, parameter := Option.none,
    value := some (.finite { num := -5, exp := 0 }), unit := Option.none,
    mode := Option.none, powertrain := Option.none }

/-- A charging-station row with valid coordinates and country whose optional
raw fields are all present as empty strings. -/
def chargingExampleRow : Row :=
  [("latitude", .str "45.0"), ("longitude", .str "100.0"),
   ("country_code", .str "us"), ("is_fast_dc", .str ""), ("city", .str ""),
   ("power_kw", .str ""), ("ports", .str ""), ("power_class", .str ""),
   ("connector_type", .str ""), ("network", .str ""), ("status", .str "")]

/-- The normalized record of `chargingExampleRow`: every optional key is
absent except `is_fast_dc`, which is set to `false`. -/
def chargingExampleRecord : ChargingRecord :=
  { latitude := .finite { num := 450, exp := 1 },
    longitude := .finite { num := 1000, exp := 1 }, country_code := "US",
    city := Option.none, power_kw := Option.none, ports := Option.none,
    power_class := Option.none, is_fast_dc := some false,
    connector_type := Option.none, network := Option.none,
    status := Option.none }

section Lemmas

/-- A `clean_string` success is non-empty and control-character free. -/
theorem clean_string_some {v : PyVal} {s : String}
    (h : clean_string v = .ok (some s)) : s ≠ "" ∧ removeCtl s = s := by
  cases v with
  | str s0 =>
    simp only [clean_string] at h
    split at h
    · simp at h
    · simp only [Except.ok.injEq] at h
      split at h
      · simp at h
      · rename_i hne
        cases h
        refine ⟨hne, ?_⟩
        simp only [removeCtl, List.filter_filter]
        congr 1
        apply List.filter_congr
        intro c _
        exact Bool.and_self _
  | int n => simp only [clean_string] at h; split at h <;> simp_all
  | float f => simp only [clean_string] at h; split at h <;> simp_all
  | bool b => simp only [clean_string] at h; split at h <;> simp_all
  | none => simp [clean_string] at h

/-- A string that is stripped, non-sentinel, non-empty and control-free is a
fixed point of `clean_string`. -/
theorem clean_string_stable {s : String} (hs : pyStrip s = s)
    (hsent : s ∉ stringSentinels) (hne : s ≠ "") (hctl : removeCtl s = s) :
    clean_string (.str s) = .ok (some s) := by
  simp only [clean_string, hs]
  rw [if_neg (by simp [hne, hsent]), hctl, if_neg hne]

/-- `pyTitleGo` maps a non-empty list to a non-empty list. -/
theorem pyTitleGo_ne_nil {b : Bool} {l : List Char} (h : l ≠ []) :
    pyTitleGo b l ≠ [] := by
  cases l with
  | nil => exact absurd rfl h
  | cons c t => simp only [pyTitleGo]; split <;> simp

/-- A successful lookup returns one of the stored values. -/
theorem lookup_mem_values {α β : Type} [BEq α] {k : α} {v : β} :
    ∀ {l : List (α × β)}, List.lookup k l = some v → v ∈ l.map Prod.snd := by
  intro l
  induction l with
  | nil => simp [List.lookup]
  | cons p t ih =>
    simp only [List.lookup, List.map_cons, List.mem_cons]
    split
    · intro h; exact Or.inl (Option.some.inj h).symm
    · intro h; exact Or.inr (ih h)

/-- A `standardize_make` success is a non-empty string. -/
theorem standardize_make_some {v : PyVal} {m : String}
    (h : standardize_make v = .ok (some m)) : m ≠ "" := by
  simp only [standardize_make] at h
  split at h
  · simp at h
  · split at h
    · simp at h
    · simp at h
    · rename_i m0 hm0
      simp only [Except.ok.injEq, Option.some.injEq] at h
      cases hl : List.lookup (pyLower m0) makeMap with
      | some x =>
        have hx : x ≠ "" := by
          have hmem := lookup_mem_values hl
          have hall : ∀ y ∈ makeMap.map Prod.snd, y ≠ "" := by decide
          exact hall x hmem
        rw [hl] at h
        simpa [← h] using hx
      | none =>
        rw [hl] at h
        simp only [Option.getD_none] at h
        have h0 : m0 ≠ "" := (clean_string_some hm0).1
        have : m0.data ≠ [] := fun hd => h0 (by cases m0; simp_all)
        have := pyTitleGo_ne_nil (b := false) this
        subst h
        simpa [pyTitle] using fun hh => this (by
          have := congrArg String.data hh
          simpa using this)

/-- A `clean_year` success lies in the valid range `[1990, 2030]`. -/
theorem clean_year_some {v : PyVal} {y : ℤ}
    (h : clean_year v = .ok (some y)) : 1990 ≤ y ∧ y ≤ 2030 := by
  simp only [clean_year] at h
  split at h <;> try simp_all
  rename_i heq
  split at h
  · rename_i hc
    simp only [Except.ok.injEq, Option.some.injEq] at h
    subst h
    exact ⟨hc.2.1, hc.2.2⟩
  · simp at h

/-- An integer lower bound on the numerator gives a rational lower bound on
the decimal value. -/
theorem dec_toRat_le_of_le {a : ℤ} {d : Dec} (h : a * 10 ^ d.exp ≤ d.num) :
    (a : ℚ) ≤ d.toRat := by
  have hpow : (0 : ℚ) < 10 ^ d.exp := by positivity
  rw [Dec.toRat, le_div_iff₀ hpow]
  exact_mod_cast h

/-- An integer upper bound on the numerator gives a rational upper bound on
the decimal value. -/
theorem dec_le_toRat_of_le {d : Dec} {b : ℤ} (h : d.num ≤ b * 10 ^ d.exp) :
    d.toRat ≤ (b : ℚ) := by
  have hpow : (0 : ℚ) < 10 ^ d.exp := by positivity
  rw [Dec.toRat, div_le_iff₀ hpow]
  exact_mod_cast h

/-- For an optional string produced by `clean_string`, the truthiness test of
the acceptance check coincides with presence. -/
theorem clean_string_optTruthy {v : PyVal} {o : Option String}
    (h : clean_string v = .ok o) : optTruthy o = o.isSome := by
  cases o with
  | none => rfl
  | some s =>
    have hs := (clean_string_some h).1
    simp [optTruthy, hs]

/-- Membership survives `dropWhile` when the predicate fails on the element. -/
theorem mem_dropWhile_of_not {p : Char → Bool} {c : Char} (hc : p c = false) :
    ∀ {l : List Char}, c ∈ l → c ∈ l.dropWhile p := by
  intro l h
  induction l with
  | nil => simp at h
  | cons a t ih =>
    by_cases hpa : p a = true
    · simp only [List.dropWhile_cons, hpa, if_true]
      rcases List.mem_cons.mp h with h1 | h2
      · subst h1; rw [hc] at hpa; cases hpa
      · exact ih h2
    · simp only [List.dropWhile_cons, hpa, if_false]
      exact h

/-- A non-whitespace member of a list survives `pyStripL`. -/
theorem mem_pyStripL {c : Char} (hc : isPyWs c = false) {l : List Char}
    (h : c ∈ l) : c ∈ pyStripL l := by
  unfold pyStripL
  rw [List.mem_reverse]
  exact mem_dropWhile_of_not hc (by
    rw [List.mem_reverse]
    exact mem_dropWhile_of_not hc h)

/-- A non-sign member of a list survives `signSplit`. -/
theorem mem_signSplit {c : Char} (h1 : c ≠ '+') (h2 : c ≠ '-')
    {cs : List Char} (h : c ∈ cs) : c ∈ (signSplit cs).2 := by
  cases cs with
  | nil => simp at h
  | cons a t =>
    simp only [signSplit]
    rcases List.mem_cons.mp h with rfl | hm
    · rw [if_neg h1, if_neg h2]
      exact List.mem_cons_self _ _
    · by_cases ha1 : a = '+'
      · simpa [ha1] using hm
      · by_cases ha2 : a = '-'
        · simpa [ha1, ha2] using hm
        · simp only [if_neg ha1, if_neg ha2]
          exact List.mem_cons_of_mem _ hm

/-- A string containing a literal dot never parses to one of the special
float values: if it parses at all, the result is finite. -/
theorem parse_float_dot_finite {v : String} (hdot : '.' ∈ v.data) :
    ∀ f, parse_float v = some f → ∃ d, f = .finite d := by
  intro f h
  have hcs : '.' ∈ pyStripL v.data :=
    mem_pyStripL (by decide) hdot
  have hrest : '.' ∈ (signSplit (pyStripL v.data)).2 :=
    mem_signSplit (by decide) (by decide) hcs
  have hlow : Char.toLower '.' ∈ (signSplit (pyStripL v.data)).2.map Char.toLower :=
    List.mem_map_of_mem Char.toLower hrest
  simp only [parse_float] at h
  split at h
  · rename_i hkw
    exfalso
    rcases hkw with hk | hk <;> rw [hk] at hlow <;> revert hlow <;> decide
  · split at h
    · rename_i hkw
      exfalso
      rw [hkw] at hlow
      revert hlow
      decide
    · split at h
      · split at h
        · simp only [Option.some.injEq] at h
          exact ⟨_, h.symm⟩
        · simp at h
      · simp at h

/-- The numeric-scan loop agrees with the claim's description whenever no
checked value parses to an infinity: the first component is `all parse
finite`, and when they all do, the second accumulates the decimal markers. -/
theorem guess_check_spec :
    ∀ (l : List String),
      (∀ v ∈ l, parse_float v ≠ some .inf ∧ parse_float v ≠ some .negInf) →
      ∀ hd : Bool,
        ∃ b, guess_check_numeric l hd = .ok (l.all parsesFinite, b) ∧
          (l.all parsesFinite = true → b = (hd || l.any decimalMarker)) := by
  intro l
  induction l with
  | nil => intro _ hd; exact ⟨hd, rfl, by simp⟩
  | cons v rest ih =>
    intro hinf hd
    have hv := hinf v (List.mem_cons_self _ _)
    have hrest := fun w hw => hinf w (List.mem_cons_of_mem _ hw)
    cases hp : parse_float v with
    | none =>
      refine ⟨hd, ?_, ?_⟩
      · simp [guess_check_numeric, hp, List.all_cons, parsesFinite]
      · intro hall
        simp [List.all_cons, parsesFinite, hp] at hall
    | some f =>
      by_cases hdot : '.' ∈ v.data
      · obtain ⟨d, hfd⟩ := parse_float_dot_finite hdot f hp
        subst hfd
        obtain ⟨b, hb1, hb2⟩ := ih hrest true
        refine ⟨b, ?_, ?_⟩
        · simp [guess_check_numeric, hp, hdot, hb1, List.all_cons, parsesFinite]
        · intro hall
          simp only [List.all_cons, Bool.and_eq_true] at hall
          rw [hb2 hall.2]
          simp [List.any_cons, decimalMarker, hdot]
      · cases f with
        | finite d =>
          obtain ⟨b, hb1, hb2⟩ := ih hrest (hd || !(d.isIntegral))
          refine ⟨b, ?_, ?_⟩
          · simp [guess_check_numeric, hp, hdot, hb1, List.all_cons, parsesFinite]
          · intro hall
            simp only [List.all_cons, Bool.and_eq_true] at hall
            rw [hb2 hall.2]
            simp only [List.any_cons, decimalMarker, hp, hdot]
            simp [Bool.or_assoc]
        | nan =>
          refine ⟨hd, ?_, ?_⟩
          · simp [guess_check_numeric, hp, hdot, List.all_cons, parsesFinite]
          · intro hall
            simp [List.all_cons, parsesFinite, hp] at hall
        | inf => exact absurd hp hv.1
        | negInf => exact absurd hp hv.2

/-- Lookup distributes over list append. -/
theorem lookup_append (k : String) (l1 l2 : List (String × PyVal)) :
    List.lookup k (l1 ++ l2) = (List.lookup k l1).or (List.lookup k l2) := by
  induction l1 with
  | nil => simp [List.lookup]
  | cons p t ih =>
    simp only [List.cons_append, List.lookup]
    split
    · rfl
    · exact ih

/-- Lookup of the matching key in an optional entry. -/
theorem lookup_optEntry_self (k : String) (v : Option PyVal) :
    List.lookup k (optEntry k v) = v := by
  cases v <;> simp [optEntry, List.lookup]

/-- Lookup of a different key in an optional entry. -/
theorem lookup_optEntry_ne {k k' : String} (h : (k == k') = false) (v : Option PyVal) :
    List.lookup k (optEntry k' v) = Option.none := by
  cases v <;> simp [optEntry, List.lookup, h]

/-- The `make` key of a read-back Vehicle record. -/
theorem vget_make (r : VehicleRecord) :
    pyGet (vehicle_record_to_row r) "make" = .str r.make := rfl

/-- The `model` key of a read-back Vehicle record. -/
theorem vget_model (r : VehicleRecord) :
    pyGet (vehicle_record_to_row r) "model" = .str r.model := rfl

/-- The `model_year` key of a read-back Vehicle record. -/
theorem vget_model_year (r : VehicleRecord) :
    pyGet (vehicle_record_to_row r) "model_year" = optIntVal r.model_year := by
  cases h : r.model_year <;>
    simp [vehicle_record_to_row, pyGet, lookup_append, lookup_optEntry_ne,
      lookup_optEntry_self, List.lookup, optIntVal, h]

/-- The `electric_vehicle_type` key of a read-back Vehicle record. -/
theorem vget_electric_vehicle_type (r : VehicleRecord) :
    pyGet (vehicle_record_to_row r) "electric_vehicle_type" = optVal r.electric_vehicle_type := by
  cases h : r.electric_vehicle_type <;>
    simp [vehicle_record_to_row, pyGet, lookup_append, lookup_optEntry_ne,
      lookup_optEntry_self, List.lookup, optVal, h]

/-- The `electric_range` key of a read-back Vehicle record. -/
theorem vget_electric_range (r : VehicleRecord) :
    pyGet (vehicle_record_to_row r) "electric_range" = optIntVal r.electric_range := by
  cases h : r.electric_range <;>
    simp [vehicle_record_to_row, pyGet, lookup_append, lookup_optEntry_ne,
      lookup_optEntry_self, List.lookup, optIntVal, h]

/-- The `base_msrp` key of a read-back Vehicle record. -/
theorem vget_base_msrp (r : VehicleRecord) :
    pyGet (vehicle_record_to_row r) "base_msrp" = optFloatVal r.base_msrp := by
  cases h : r.base_msrp <;>
    simp [vehicle_record_to_row, pyGet, lookup_append, lookup_optEntry_ne,
      lookup_optEntry_self, List.lookup, optFloatVal, h]

/-- The `state` key of a read-back Vehicle record. -/
theorem vget_state (r : VehicleRecord) :
    pyGet (vehicle_record_to_row r) "state" = optVal r.state := by
  cases h : r.state <;>
    simp [vehicle_record_to_row, pyGet, lookup_append, lookup_optEntry_ne,
      lookup_optEntry_self, List.lookup, optVal, h]

/-- The `city` key of a read-back Vehicle record. -/
theorem vget_city (r : VehicleRecord) :
    pyGet (vehicle_record_to_row r) "city" = optVal r.city := by
  cases h : r.city <;>
    simp [vehicle_record_to_row, pyGet, lookup_append, lookup_optEntry_ne,
      lookup_optEntry_self, List.lookup, optVal, h]

/-- The `county` key of a read-back Vehicle record. -/
theorem vget_county (r : VehicleRecord) :
    pyGet (vehicle_record_to_row r) "county" = optVal r.county := by
  cases h : r.county <;>
    simp [vehicle_record_to_row, pyGet, lookup_append, lookup_optEntry_ne,
      lookup_optEntry_self, List.lookup, optVal, h]

/-- The `vin_1_10` key of a read-back Vehicle record. -/
theorem vget_vin_1_10 (r : VehicleRecord) :
    pyGet (vehicle_record_to_row r) "vin_1_10" = optVal r.vin_1_10 := by
  cases h : r.vin_1_10 <;>
    simp [vehicle_record_to_row, pyGet, lookup_append, lookup_optEntry_ne,
      lookup_optEntry_self, List.lookup, optVal, h]

/-- The `Model Year` key is absent from a read-back Vehicle record. -/
theorem vget_Model_Year (r : VehicleRecord) :
    pyGet (vehicle_record_to_row r) "Model Year" = .none := by
  simp [vehicle_record_to_row, pyGet, lookup_append, lookup_optEntry_ne, List.lookup]

/-- The `year` key is absent from a read-back Vehicle record. -/
theorem vget_year (r : VehicleRecord) :
    pyGet (vehicle_record_to_row r) "year" = .none := by
  simp [vehicle_record_to_row, pyGet, lookup_append, lookup_optEntry_ne, List.lookup]

/-- The `Year` key is absent from a read-back Vehicle record. -/
theorem vget_Year (r : VehicleRecord) :
    pyGet (vehicle_record_to_row r) "Year" = .none := by
  simp [vehicle_record_to_row, pyGet, lookup_append, lookup_optEntry_ne, List.lookup]

/-- The `Electric Vehicle Type` key is absent from a read-back Vehicle record. -/
theorem vget_Electric_Vehicle_Type (r : VehicleRecord) :
    pyGet (vehicle_record_to_row r) "Electric Vehicle Type" = .none := by
  simp [vehicle_record_to_row, pyGet, lookup_append, lookup_optEntry_ne, List.lookup]

/-- The `EV Type` key is absent from a read-back Vehicle record. -/
theorem vget_EV_Type (r : VehicleRecord) :
    pyGet (vehicle_record_to_row r) "EV Type" = .none := by
  simp [vehicle_record_to_row, pyGet, lookup_append, lookup_optEntry_ne, List.lookup]

/-- The `Electric Range` key is absent from a read-back Vehicle record. -/
theorem vget_Electric_Range (r : VehicleRecord) :
    pyGet (vehicle_record_to_row r) "Electric Range" = .none := by
  simp [vehicle_record_to_row, pyGet, lookup_append, lookup_optEntry_ne, List.lookup]

/-- The `range` key is absent from a read-back Vehicle record. -/
theorem vget_range (r : VehicleRecord) :
    pyGet (vehicle_record_to_row r) "range" = .none := by
  simp [vehicle_record_to_row, pyGet, lookup_append, lookup_optEntry_ne, List.lookup]

/-- The `Base MSRP` key is absent from a read-back Vehicle record. -/
theorem vget_Base_MSRP (r : VehicleRecord) :
    pyGet (vehicle_record_to_row r) "Base MSRP" = .none := by
  simp [vehicle_record_to_row, pyGet, lookup_append, lookup_optEntry_ne, List.lookup]

/-- The `MSRP` key is absent from a read-back Vehicle record. -/
theorem vget_MSRP (r : VehicleRecord) :
    pyGet (vehicle_record_to_row r) "MSRP" = .none := by
  simp [vehicle_record_to_row, pyGet, lookup_append, lookup_optEntry_ne, List.lookup]

/-- The `price` key is absent from a read-back Vehicle record. -/
theorem vget_price (r : VehicleRecord) :
    pyGet (vehicle_record_to_row r) "price" = .none := by
  simp [vehicle_record_to_row, pyGet, lookup_append, lookup_optEntry_ne, List.lookup]

/-- The `State` key is absent from a read-back Vehicle record. -/
theorem vget_State (r : VehicleRecord) :
    pyGet (vehicle_record_to_row r) "State" = .none := by
  simp [vehicle_record_to_row, pyGet, lookup_append, lookup_optEntry_ne, List.lookup]

/-- The `City` key is absent from a read-back Vehicle record. -/
theorem vget_City (r : VehicleRecord) :
    pyGet (vehicle_record_to_row r) "City" = .none := by
  simp [vehicle_record_to_row, pyGet, lookup_append, lookup_optEntry_ne, List.lookup]

/-- The `County` key is absent from a read-back Vehicle record. -/
theorem vget_County (r : VehicleRecord) :
    pyGet (vehicle_record_to_row r) "County" = .none := by
  simp [vehicle_record_to_row, pyGet, lookup_append, lookup_optEntry_ne, List.lookup]

/-- The `VIN (1-10)` key is absent from a read-back Vehicle record. -/
theorem vget_VIN_1_10 (r : VehicleRecord) :
    pyGet (vehicle_record_to_row r) "VIN (1-10)" = .none := by
  simp [vehicle_record_to_row, pyGet, lookup_append, lookup_optEntry_ne, List.lookup]

/-- The `VIN` key is absent from a read-back Vehicle record. -/
theorem vget_VIN (r : VehicleRecord) :
    pyGet (vehicle_record_to_row r) "VIN" = .none := by
  simp [vehicle_record_to_row, pyGet, lookup_append, lookup_optEntry_ne, List.lookup]

/-- The `vin` key is absent from a read-back Vehicle record. -/
theorem vget_vin (r : VehicleRecord) :
    pyGet (vehicle_record_to_row r) "vin" = .none := by
  simp [vehicle_record_to_row, pyGet, lookup_append, lookup_optEntry_ne, List.lookup]

/-- The `latitude` key of a read-back Charging record. -/
theorem cget_latitude (r : ChargingRecord) :
    pyGet (charging_record_to_row r) "latitude" = .float r.latitude := rfl

/-- The `longitude` key of a read-back Charging record. -/
theorem cget_longitude (r : ChargingRecord) :
    pyGet (charging_record_to_row r) "longitude" = .float r.longitude := rfl

/-- The `country_code` key of a read-back Charging record. -/
theorem cget_country_code (r : ChargingRecord) :
    pyGet (charging_record_to_row r) "country_code" = .str r.country_code := rfl

/-- The `city` key of a read-back Charging record. -/
theorem cget_city (r : ChargingRecord) :
    pyGet (charging_record_to_row r) "city" = optVal r.city := by
  cases h : r.city <;>
    simp [charging_record_to_row, pyGet, lookup_append, lookup_optEntry_ne,
      lookup_optEntry_self, List.lookup, optVal, h]

/-- The `power_kw` key of a read-back Charging record. -/
theorem cget_power_kw (r : ChargingRecord) :
    pyGet (charging_record_to_row r) "power_kw" = optFloatVal r.power_kw := by
  cases h : r.power_kw <;>
    simp [charging_record_to_row, pyGet, lookup_append, lookup_optEntry_ne,
      lookup_optEntry_self, List.lookup, optFloatVal, h]

/-- The `ports` key of a read-back Charging record. -/
theorem cget_ports (r : ChargingRecord) :
    pyGet (charging_record_to_row r) "ports" = optIntVal r.ports := by
  cases h : r.ports <;>
    simp [charging_record_to_row, pyGet, lookup_append, lookup_optEntry_ne,
      lookup_optEntry_self, List.lookup, optIntVal, h]

/-- The `power_class` key of a read-back Charging record. -/
theorem cget_power_class (r : ChargingRecord) :
    pyGet (charging_record_to_row r) "power_class" = optVal r.power_class := by
  cases h : r.power_class <;>
    simp [charging_record_to_row, pyGet, lookup_append, lookup_optEntry_ne,
      lookup_optEntry_self, List.lookup, optVal, h]

/-- The `is_fast_dc` key of a read-back Charging record. -/
theorem cget_is_fast_dc (r : ChargingRecord) :
    pyGet (charging_record_to_row r) "is_fast_dc" = optBoolVal r.is_fast_dc := by
  cases h : r.is_fast_dc <;>
    simp [charging_record_to_row, pyGet, lookup_append, lookup_optEntry_ne,
      lookup_optEntry_self, List.lookup, optBoolVal, h]

/-- The `connector_type` key of a read-back Charging record. -/
theorem cget_connector_type (r : ChargingRecord) :
    pyGet (charging_record_to_row r) "connector_type" = optVal r.connector_type := by
  cases h : r.connector_type <;>
    simp [charging_record_to_row, pyGet, lookup_append, lookup_optEntry_ne,
      lookup_optEntry_self, List.lookup, optVal, h]

/-- The `network` key of a read-back Charging record. -/
theorem cget_network (r : ChargingRecord) :
    pyGet (charging_record_to_row r) "network" = optVal r.network := by
  cases h : r.network <;>
    simp [charging_record_to_row, pyGet, lookup_append, lookup_optEntry_ne,
      lookup_optEntry_self, List.lookup, optVal, h]

/-- The `status` key of a read-back Charging record. -/
theorem cget_status (r : ChargingRecord) :
    pyGet (charging_record_to_row r) "status" = optVal r.status := by
  cases h : r.status <;>
    simp [charging_record_to_row, pyGet, lookup_append, lookup_optEntry_ne,
      lookup_optEntry_self, List.lookup, optVal, h]

/-- The `country` key is absent from a read-back Charging record. -/
theorem cget_country (r : ChargingRecord) :
    pyGet (charging_record_to_row r) "country" = .none := by
  simp [charging_record_to_row, pyGet, lookup_append, lookup_optEntry_ne, List.lookup]

/-- The `power` key is absent from a read-back Charging record. -/
theorem cget_power (r : ChargingRecord) :
    pyGet (charging_record_to_row r) "power" = .none := by
  simp [charging_record_to_row, pyGet, lookup_append, lookup_optEntry_ne, List.lookup]

/-- The `operator` key is absent from a read-back Charging record. -/
theorem cget_operator (r : ChargingRecord) :
    pyGet (charging_record_to_row r) "operator" = .none := by
  simp [charging_record_to_row, pyGet, lookup_append, lookup_optEntry_ne, List.lookup]

/-- The record fields of `sales_record_to_row` read back by key. -/
theorem sget_region (r : SalesRecord) :
    pyGet (sales_record_to_row r) "region" = .str r.region := rfl

/-- The `year` key of a read-back sales record. -/
theorem sget_year (r : SalesRecord) :
    pyGet (sales_record_to_row r) "year" = .int r.year := rfl

/-- The `parameter` key of a read-back sales record. -/
theorem sget_parameter (r : SalesRecord) :
    pyGet (sales_record_to_row r) "parameter" = optVal r.parameter := by
  obtain ⟨reg, yr, par, val, un, mo, pt⟩ := r
  cases par <;> cases val <;> cases un <;> cases mo <;> cases pt <;> rfl

/-- The `category` key of a read-back sales record is absent. -/
theorem sget_category (r : SalesRecord) :
    pyGet (sales_record_to_row r) "category" = .none := by
  obtain ⟨reg, yr, par, val, un, mo, pt⟩ := r
  cases par <;> cases val <;> cases un <;> cases mo <;> cases pt <;> rfl

/-- The `value` key of a read-back sales record. -/
theorem sget_value (r : SalesRecord) :
    pyGet (sales_record_to_row r) "value" = optFloatVal r.value := by
  obtain ⟨reg, yr, par, val, un, mo, pt⟩ := r
  cases par <;> cases val <;> cases un <;> cases mo <;> cases pt <;> rfl

/-- The `unit` key of a read-back sales record. -/
theorem sget_unit (r : SalesRecord) :
    pyGet (sales_record_to_row r) "unit" = optVal r.unit := by
  obtain ⟨reg, yr, par, val, un, mo, pt⟩ := r
  cases par <;> cases val <;> cases un <;> cases mo <;> cases pt <;> rfl

/-- The `mode` key of a read-back sales record. -/
theorem sget_mode (r : SalesRecord) :
    pyGet (sales_record_to_row r) "mode" = optVal r.mode := by
  obtain ⟨reg, yr, par, val, un, mo, pt⟩ := r
  cases par <;> cases val <;> cases un <;> cases mo <;> cases pt <;> rfl

/-- The `powertrain` key of a read-back sales record. -/
theorem sget_powertrain (r : SalesRecord) :
    pyGet (sales_record_to_row r) "powertrain" = optVal r.powertrain := by
  obtain ⟨reg, yr, par, val, un, mo, pt⟩ := r
  cases par <;> cases val <;> cases un <;> cases mo <;> cases pt <;> rfl

/-- A stable optional string field re-cleans to itself. -/
theorem clean_string_optVal {o : Option String} (hst : stableOptStr o)
    (hw : ∀ p, o = some p → p ≠ "" ∧ removeCtl p = p) :
    clean_string (optVal o) = .ok o := by
  cases o with
  | none => rfl
  | some p => exact clean_string_stable hst.1 hst.2 (hw p rfl).1 (hw p rfl).2

/-- Python `or` with an absent fallback leaves an optional field value
unchanged when a present value is non-empty. -/
theorem pyOr_optVal_none {o : Option String} (hw : ∀ p, o = some p → p ≠ "") :
    pyOr (optVal o) PyVal.none = optVal o := by
  cases o with
  | none => rfl
  | some p =>
    have : (p == "") = false := by simpa using hw p rfl
    simp [pyOr, optVal, pyTruthy, this]

/-- A valid stored year re-cleans to itself. -/
theorem clean_year_int_stable {y : ℤ} (h1 : 1990 ≤ y) (h2 : y ≤ 2030) :
    clean_year (.int y) = .ok (some y) := by
  have hy : (y == 0) = false := by
    simp only [beq_eq_false_iff_ne, ne_eq]
    omega
  have hcond : y ≠ 0 ∧ 1990 ≤ y ∧ y ≤ 2030 := ⟨by omega, h1, h2⟩
  simp [clean_year, clean_numeric, pyTruthy, hy, hcond]

/-- Python `or` keeps a truthy (non-empty) string left operand. -/
theorem pyOr_str {v : PyVal} {p : String} (h : (p == "") = false) :
    pyOr (.str p) v = .str p := by
  simp [pyOr, pyTruthy, h]

/-- Python `or` keeps a truthy (non-zero) integer left operand. -/
theorem pyOr_int {v : PyVal} {n : ℤ} (h : (n == 0) = false) :
    pyOr (.int n) v = .int n := by
  simp [pyOr, pyTruthy, h]

/-- Python `or` keeps a truthy float left operand. -/
theorem pyOr_float {v : PyVal} {f : PyFloat} (h : pyTruthy (.float f) = true) :
    pyOr (.float f) v = .float f := by
  simp [pyOr, h]

/-- `str.upper()` of a non-empty string is non-empty. -/
theorem pyUpper_ne_empty {s : String} (h : s ≠ "") : pyUpper s ≠ "" := by
  intro hc
  apply h
  have hd := congrArg String.data hc
  simp only [pyUpper] at hd
  cases s with
  | mk data =>
    simp only at hd
    simp only [List.map_eq_nil_iff] at hd
    simp [hd]

/-- A make that is a fixed point of `clean_string` and of the
map-or-title standardization step is a fixed point of `standardize_make`. -/
theorem standardize_make_stable {m : String} (hS : stableStr m) (hne : m ≠ "")
    (hctl : removeCtl m = m)
    (hstd : (List.lookup (pyLower m) makeMap).getD (pyTitle m) = m) :
    standardize_make (.str m) = .ok (some m) := by
  have hb : (m == "") = false := by simpa using hne
  simp only [standardize_make, pyTruthy, hb, Bool.not_false]
  rw [if_neg (by simp)]
  rw [clean_string_stable hS.1 hS.2 hne hctl]
  simp [hstd]

/-- The vehicle year alias chain re-cleans a stored year to itself. -/
theorem clean_year_chain2 {o : Option ℤ}
    (hr : ∀ y, o = some y → 1990 ≤ y ∧ y ≤ 2030) :
    clean_year (pyOr (pyOr (optIntVal o) PyVal.none) (pyOr PyVal.none PyVal.none)) = .ok o := by
  cases o with
  | none => rfl
  | some y =>
    have h0 : (y == 0) = false := by
      have := (hr y rfl).1
      simp only [beq_eq_false_iff_ne, ne_eq]
      omega
    show clean_year (pyOr (pyOr (.int y) PyVal.none) (pyOr PyVal.none PyVal.none)) = _
    rw [pyOr_int h0, pyOr_int h0]
    exact clean_year_int_stable (hr y rfl).1 (hr y rfl).2

/-- A stable optional string field re-cleans to itself through a two-step
alias chain. -/
theorem clean_string_opt2 {o : Option String} (hst : stableOptStr o)
    (hw : ∀ p, o = some p → p ≠ "" ∧ removeCtl p = p) :
    clean_string (pyOr (pyOr (optVal o) PyVal.none) PyVal.none) = .ok o := by
  cases o with
  | none => rfl
  | some p =>
    have hb : (p == "") = false := by simpa using (hw p rfl).1
    show clean_string (pyOr (pyOr (.str p) PyVal.none) PyVal.none) = _
    rw [pyOr_str hb, pyOr_str hb]
    exact clean_string_stable hst.1 hst.2 (hw p rfl).1 (hw p rfl).2

/-- A stable optional string field re-cleans to itself through a three-step
alias chain. -/
theorem clean_string_opt3 {o : Option String} (hst : stableOptStr o)
    (hw : ∀ p, o = some p → p ≠ "" ∧ removeCtl p = p) :
    clean_string (pyOr (pyOr (pyOr (optVal o) PyVal.none) PyVal.none) PyVal.none) = .ok o := by
  cases o with
  | none => rfl
  | some p =>
    have hb : (p == "") = false := by simpa using (hw p rfl).1
    show clean_string (pyOr (pyOr (pyOr (.str p) PyVal.none) PyVal.none) PyVal.none) = _
    rw [pyOr_str hb, pyOr_str hb, pyOr_str hb]
    exact clean_string_stable hst.1 hst.2 (hw p rfl).1 (hw p rfl).2

/-- A stored positive integer field re-cleans to itself (no alias chain). -/
theorem clean_numeric_int_plain {o : Option ℤ}
    (hp : ∀ n, o = some n → n ≠ 0 ∧ 0 < n) :
    clean_numeric (optIntVal o) "int" = .ok (o.map PyVal.int) := by
  cases o with
  | none => rfl
  | some n =>
    have h0 : (n == 0) = false := by simpa using (hp n rfl).1
    simp [clean_numeric, optIntVal, pyTruthy, h0]

/-- A stored positive integer field re-cleans to itself through a two-step
alias chain. -/
theorem clean_numeric_int_chain2 {o : Option ℤ}
    (hp : ∀ n, o = some n → n ≠ 0 ∧ 0 < n) :
    clean_numeric (pyOr (pyOr (optIntVal o) PyVal.none) PyVal.none) "int"
      = .ok (o.map PyVal.int) := by
  cases o with
  | none => rfl
  | some n =>
    have h0 : (n == 0) = false := by simpa using (hp n rfl).1
    show clean_numeric (pyOr (pyOr (.int n) PyVal.none) PyVal.none) "int" = _
    rw [pyOr_int h0, pyOr_int h0]
    simp [clean_numeric, pyTruthy, h0]

/-- A stored truthy positive float field re-cleans to itself through a
one-step alias chain. -/
theorem clean_numeric_float_chain1 {o : Option PyFloat}
    (hf : ∀ f, o = some f → pyTruthy (.float f) = true ∧ pyGtZero f = true) :
    clean_numeric (pyOr (optFloatVal o) PyVal.none) "float" = .ok (o.map PyVal.float) := by
  cases o with
  | none => rfl
  | some f =>
    have ht := (hf f rfl).1
    show clean_numeric (pyOr (.float f) PyVal.none) "float" = _
    rw [pyOr_float ht]
    cases f with
    | finite d =>
      have hd : (d.num == 0) = false := by
        simpa [pyTruthy] using ht
      simp [clean_numeric, pyTruthy, hd]
    | inf => rfl
    | negInf => rfl
    | nan => simpa [pyGtZero] using (hf .nan rfl).2

/-- A stored truthy positive float field re-cleans to itself through a
three-step alias chain. -/
theorem clean_numeric_float_chain3 {o : Option PyFloat}
    (hf : ∀ f, o = some f → pyTruthy (.float f) = true ∧ pyGtZero f = true) :
    clean_numeric (pyOr (pyOr (pyOr (optFloatVal o) PyVal.none) PyVal.none) PyVal.none) "float"
      = .ok (o.map PyVal.float) := by
  cases o with
  | none => rfl
  | some f =>
    have ht := (hf f rfl).1
    show clean_numeric (pyOr (pyOr (pyOr (.float f) PyVal.none) PyVal.none) PyVal.none)
      "float" = _
    rw [pyOr_float ht, pyOr_float ht, pyOr_float ht]
    cases f with
    | finite d =>
      have hd : (d.num == 0) = false := by
        simpa [pyTruthy] using ht
      simp [clean_numeric, pyTruthy, hd]
    | inf => rfl
    | negInf => rfl
    | nan => simpa [pyGtZero] using (hf .nan rfl).2

/-- A read-back `is_fast_dc` field maps back to itself: a stored boolean is
re-coerced with `bool()` and `None` stays absent. -/
theorem fastDc_optBoolVal (o : Option Bool) : fastDcOf (optBoolVal o) = o := by
  cases o <;> rfl

/-- A successful coordinate validation implies both results are the parsed
inputs and in range. -/
theorem validate_some {a b : PyVal} {x y : PyFloat}
    (h : validate_coordinates a b = (some x, some y)) :
    inRangeLat x = true ∧ inRangeLng y = true ∧
    pyFloatOf a = some x ∧ pyFloatOf b = some y := by
  simp only [validate_coordinates] at h
  split at h
  · split at h
    · simp at h
    · rename_i lf hlf
      split at h
      · split at h
        · simp at h
        · rename_i gf hgf
          split at h
          · rename_i hr
            simp only [Prod.mk.injEq, Option.some.injEq] at h
            obtain ⟨h1, h2⟩ := h
            subst h1
            subst h2
            simp only [Bool.and_eq_true] at hr
            exact ⟨hr.1, hr.2, hlf, hgf⟩
          · simp at h
      · simp at h
  · simp at h

/-- Truthy validated coordinates re-validate to themselves. -/
theorem validate_float_stable {x y : PyFloat}
    (hx : pyTruthy (.float x) = true) (hy : pyTruthy (.float y) = true)
    (h1 : inRangeLat x = true) (h2 : inRangeLng y = true) :
    validate_coordinates (.float x) (.float y) = (some x, some y) := by
  simp [validate_coordinates, hx, hy, pyFloatOf, h1, h2]

/-- A stored float value other than `0.0` and `nan` re-cleans to itself. -/
theorem clean_numeric_optFloatVal {w : Option PyFloat}
    (h0 : ∀ d : Dec, w = some (.finite d) → d.num ≠ 0)
    (hn : w ≠ some .nan) :
    clean_numeric (optFloatVal w) "float" = .ok (w.map PyVal.float) := by
  cases w with
  | none => rfl
  | some f =>
    cases f with
    | finite d =>
      have hd : (d.num == 0) = false := by
        simpa using h0 d rfl
      simp [clean_numeric, optFloatVal, pyTruthy, hd]
    | inf => rfl
    | negInf => rfl
    | nan => exact absurd rfl hn

/-- Re-cleaning a read-back sales record whose string fields are stable,
whose year is in range, and whose value is neither `0.0` nor `nan`, yields
the record unchanged. -/
theorem sales_reclean_core (L : SalesRecord)
    (hregS : stableStr L.region) (hparS : stableOptStr L.parameter)
    (hunS : stableOptStr L.unit) (hmoS : stableOptStr L.mode)
    (hptS : stableOptStr L.powertrain)
    (hreF : L.region ≠ "" ∧ removeCtl L.region = L.region)
    (hyrF : 1990 ≤ L.year ∧ L.year ≤ 2030)
    (hparW : ∀ p, L.parameter = some p → p ≠ "" ∧ removeCtl p = p)
    (hunW : ∀ p, L.unit = some p → p ≠ "" ∧ removeCtl p = p)
    (hmoW : ∀ p, L.mode = some p → p ≠ "" ∧ removeCtl p = p)
    (hptW : ∀ p, L.powertrain = some p → p ≠ "" ∧ removeCtl p = p)
    (hv0 : ∀ d : Dec, L.value = some (.finite d) → d.num ≠ 0)
    (hvn : L.value ≠ some .nan) :
    clean_ev_sales_row (sales_record_to_row L) = .ok (some L) := by
  obtain ⟨reg, yr, par, val, un, mo, pt⟩ := L
  have hne : (reg == "") = false := by simpa using hreF.1
  cases val with
  | none =>
    simp only [clean_ev_sales_row, sget_region, sget_year, sget_parameter,
      sget_category, sget_value, sget_unit, sget_mode, sget_powertrain]
    rw [pyOr_str hne, pyOr_optVal_none (fun p hp => (hparW p hp).1),
      clean_string_stable hregS.1 hregS.2 hreF.1 hreF.2,
      clean_year_int_stable hyrF.1 hyrF.2,
      clean_string_optVal hparS hparW,
      clean_numeric_optFloatVal hv0 hvn,
      clean_string_optVal hunS hunW,
      clean_string_optVal hmoS hmoW,
      clean_string_optVal hptS hptW]
    rfl
  | some f =>
    simp only [clean_ev_sales_row, sget_region, sget_year, sget_parameter,
      sget_category, sget_value, sget_unit, sget_mode, sget_powertrain]
    rw [pyOr_str hne, pyOr_optVal_none (fun p hp => (hparW p hp).1),
      clean_string_stable hregS.1 hregS.2 hreF.1 hreF.2,
      clean_year_int_stable hyrF.1 hyrF.2,
      clean_string_optVal hparS hparW,
      clean_numeric_optFloatVal hv0 hvn,
      clean_string_optVal hunS hunW,
      clean_string_optVal hmoS hmoW,
      clean_string_optVal hptS hptW]
    rfl

/-- Re-cleaning a read-back vehicle record whose make/model and optional
string fields are stable, whose year is in range, whose numeric fields carry
the positivity the cleaner enforces, and whose VIN is long enough, yields
the record unchanged. -/
theorem vehicle_reclean_core (r : VehicleRecord)
    (hmkS : stableStr r.make) (hmkC : removeCtl r.make = r.make)
    (hmkM : (List.lookup (pyLower r.make) makeMap).getD (pyTitle r.make) = r.make)
    (hmdS : stableStr r.model)
    (hevS : stableOptStr r.electric_vehicle_type)
    (hstS : stableOptStr r.state) (hctS : stableOptStr r.city)
    (hcyS : stableOptStr r.county) (hvnS : stableOptStr r.vin_1_10)
    (hmkF : r.make ≠ "")
    (hmdF : r.model ≠ "" ∧ removeCtl r.model = r.model)
    (hyr : ∀ y, r.model_year = some y → 1990 ≤ y ∧ y ≤ 2030)
    (hevW : ∀ p, r.electric_vehicle_type = some p → p ≠ "" ∧ removeCtl p = p)
    (hrgP : ∀ n, r.electric_range = some n → n ≠ 0 ∧ 0 < n)
    (hmsP : ∀ f, r.base_msrp = some f → pyTruthy (.float f) = true ∧ pyGtZero f = true)
    (hstW : ∀ p, r.state = some p → p ≠ "" ∧ removeCtl p = p)
    (hctW : ∀ p, r.city = some p → p ≠ "" ∧ removeCtl p = p)
    (hcyW : ∀ p, r.county = some p → p ≠ "" ∧ removeCtl p = p)
    (hvnW : ∀ p, r.vin_1_10 = some p → p ≠ "" ∧ removeCtl p = p)
    (hvnL : ∀ v, r.vin_1_10 = some v → 10 ≤ v.length)
    (hacc : (optTruthy r.state || optTruthy r.city) = true) :
    clean_ev_population_row (vehicle_record_to_row r) = .ok (some r) := by
  obtain ⟨mk, md, my, ev, rg, ms, st, ct, cy, vn⟩ := r
  dsimp only at *
  have hbmk : (mk == "") = false := by simpa using hmkF
  have hbmd : (md == "") = false := by simpa using hmdF.1
  simp only [clean_ev_population_row, vehicleMakeField, vehicleModelField,
    vehicleYearField, vehicleStateField, vehicleCityField,
    vget_make, vget_model, vget_model_year, vget_Model_Year, vget_year,
    vget_Year, vget_electric_vehicle_type, vget_Electric_Vehicle_Type,
    vget_EV_Type, vget_electric_range, vget_Electric_Range, vget_range,
    vget_base_msrp, vget_Base_MSRP, vget_MSRP, vget_price,
    vget_state, vget_State, vget_city, vget_City, vget_county, vget_County,
    vget_vin_1_10, vget_VIN_1_10, vget_VIN, vget_vin]
  rw [pyOr_str hbmk, pyOr_str hbmd,
    standardize_make_stable hmkS hmkF hmkC hmkM,
    clean_string_stable hmdS.1 hmdS.2 hmdF.1 hmdF.2,
    clean_year_chain2 hyr,
    clean_string_opt2 hevS hevW,
    clean_numeric_int_chain2 hrgP,
    clean_numeric_float_chain3 hmsP,
    pyOr_optVal_none (fun p hp => (hstW p hp).1), clean_string_optVal hstS hstW,
    pyOr_optVal_none (fun p hp => (hctW p hp).1), clean_string_optVal hctS hctW,
    pyOr_optVal_none (fun p hp => (hcyW p hp).1), clean_string_optVal hcyS hcyW,
    clean_string_opt3 hvnS hvnW]
  dsimp only
  rw [if_pos (show (!(mk == "") && !(md == "") && (optTruthy st || optTruthy ct)) = true by
    rw [hbmk, hbmd]
    simpa using hacc)]
  cases rg with
  | none =>
    cases ms with
    | none =>
      cases vn with
      | none => rfl
      | some v =>
        dsimp only [Option.map_none', Option.map_some']
        rw [if_pos (hvnL v rfl)]
    | some f =>
      cases vn with
      | none =>
        dsimp only [Option.map_none', Option.map_some']
        rw [if_pos (show (pyTruthy (.float f) && pyGtZero f) = true by
          rw [(hmsP f rfl).1, (hmsP f rfl).2]; rfl)]
      | some v =>
        dsimp only [Option.map_none', Option.map_some']
        rw [if_pos (show (pyTruthy (.float f) && pyGtZero f) = true by
          rw [(hmsP f rfl).1, (hmsP f rfl).2]; rfl),
          if_pos (hvnL v rfl)]
  | some n =>
    cases ms with
    | none =>
      cases vn with
      | none =>
        dsimp only [Option.map_none', Option.map_some']
        rw [if_pos (hrgP n rfl)]
      | some v =>
        dsimp only [Option.map_none', Option.map_some']
        rw [if_pos (hrgP n rfl), if_pos (hvnL v rfl)]
    | some f =>
      cases vn with
      | none =>
        dsimp only [Option.map_none', Option.map_some']
        rw [if_pos (hrgP n rfl),
          if_pos (show (pyTruthy (.float f) && pyGtZero f) = true by
            rw [(hmsP f rfl).1, (hmsP f rfl).2]; rfl)]
      | some v =>
        dsimp only [Option.map_none', Option.map_some']
        rw [if_pos (hrgP n rfl),
          if_pos (show (pyTruthy (.float f) && pyGtZero f) = true by
            rw [(hmsP f rfl).1, (hmsP f rfl).2]; rfl),
          if_pos (hvnL v rfl)]

/-- Re-cleaning a read-back charging-station record with non-zero validated
coordinates, a stable upper-case country code, stable optional strings and
positivity-guarded numeric fields yields the record unchanged. -/
theorem charging_reclean_core (r : ChargingRecord)
    (hccS : stableStr r.country_code) (hccC : removeCtl r.country_code = r.country_code)
    (hccU : pyUpper r.country_code = r.country_code)
    (hla : pyTruthy (.float r.latitude) = true)
    (hlo : pyTruthy (.float r.longitude) = true)
    (hciS : stableOptStr r.city) (hpcS : stableOptStr r.power_class)
    (hcoS : stableOptStr r.connector_type) (hnwS : stableOptStr r.network)
    (hst2 : stableOptStr r.status)
    (hlaR : inRangeLat r.latitude = true) (hloR : inRangeLng r.longitude = true)
    (hccF : r.country_code ≠ "")
    (hciW : ∀ p, r.city = some p → p ≠ "" ∧ removeCtl p = p)
    (hpcW : ∀ p, r.power_class = some p → p ≠ "" ∧ removeCtl p = p)
    (hcoW : ∀ p, r.connector_type = some p → p ≠ "" ∧ removeCtl p = p)
    (hnwW : ∀ p, r.network = some p → p ≠ "" ∧ removeCtl p = p)
    (hstW2 : ∀ p, r.status = some p → p ≠ "" ∧ removeCtl p = p)
    (hpkP : ∀ f, r.power_kw = some f → pyTruthy (.float f) = true ∧ pyGtZero f = true)
    (hptP : ∀ n, r.ports = some n → n ≠ 0 ∧ 0 < n) :
    clean_charging_stations_row (charging_record_to_row r) = .ok (some r) := by
  obtain ⟨la, lo, cc, ci, pk, pt, pc, fd, co, nw, stt⟩ := r
  dsimp only at *
  have hbcc : (cc == "") = false := by simpa using hccF
  simp only [clean_charging_stations_row, cget_latitude, cget_longitude,
    cget_country_code, cget_city, cget_power_kw, cget_ports, cget_power_class,
    cget_is_fast_dc, cget_connector_type, cget_network, cget_status,
    cget_country, cget_power, cget_operator]
  rw [validate_float_stable hla hlo hlaR hloR,
    pyOr_str hbcc,
    clean_string_stable hccS.1 hccS.2 hccF hccC,
    clean_string_optVal hciS hciW,
    clean_numeric_float_chain1 hpkP,
    clean_numeric_int_plain hptP,
    clean_string_optVal hpcS hpcW,
    clean_string_optVal hcoS hcoW,
    pyOr_optVal_none (fun p hp => (hnwW p hp).1), clean_string_optVal hnwS hnwW,
    clean_string_optVal hst2 hstW2]
  dsimp only
  rw [hccU, fastDc_optBoolVal]
  cases pk with
  | none =>
    cases pt with
    | none => rfl
    | some n =>
      dsimp only [Option.map_none', Option.map_some']
      rw [if_pos (hptP n rfl)]
  | some f =>
    cases pt with
    | none =>
      dsimp only [Option.map_none', Option.map_some']
      rw [if_pos (show (pyTruthy (.float f) && pyGtZero f) = true by
        rw [(hpkP f rfl).1, (hpkP f rfl).2]; rfl)]
    | some n =>
      dsimp only [Option.map_none', Option.map_some']
      rw [if_pos (show (pyTruthy (.float f) && pyGtZero f) = true by
        rw [(hpkP f rfl).1, (hpkP f rfl).2]; rfl),
        if_pos (hptP n rfl)]

end Lemmas

/-- C4: the claim that no field normalizer ever raises is contradicted by the
code: `clean_numeric('inf', 'int')` — and hence `clean_year('inf')` — reaches
`int(float('inf'))`, whose `OverflowError` is not among the caught
`(ValueError, TypeError)` and escapes to the caller. -/
theorem clean_numeric_inf_uncaught_overflow :
    clean_numeric (.str "inf") "int" = .error .overflowError ∧
    clean_year (.str "inf") = .error .overflowError :=
  ⟨rfl, rfl⟩

/-- C5 counterexample: sentinel matching is exact, not case-insensitive —
`clean_string("NONE")` returns `"NONE"`, not `none`. -/
theorem clean_string_sentinel_counterexample :
    clean_string (.str "NONE") = .ok (some "NONE") ∧
    (Except.ok (some "NONE") : Except PyErr (Option String)) ≠ .ok Option.none :=
  ⟨rfl, by simp⟩

/-- C5 amended: for every string whose trimmed form equals one of the exact
(case-sensitive) sentinels `''`, `'NULL'`, `'null'`, `'None'`, `'N/A'`,
`'n/a'`, `clean_string` returns `none`. -/
theorem clean_string_sentinel_exact :
    ∀ s : String, pyStrip s ∈ stringSentinels → clean_string (.str s) = .ok Option.none := by
  intro s hs
  simp only [clean_string]
  rw [if_pos (Or.inr hs)]

/-- Witness for C5 at the concrete input `" NULL "`. -/
theorem clean_string_sentinel_exact_witness :
    clean_string (.str " NULL ") = .ok Option.none :=
  clean_string_sentinel_exact " NULL " (by decide)

/-- C6 counterexample: on `"\x00 \x00"` (control characters around interior
whitespace) `clean_string` returns the whitespace-only string `" "`. -/
theorem clean_string_whitespace_counterexample :
    clean_string (.str "\x00 \x00") = .ok (some " ") ∧
    (" " : String).data.all isPyWs = true :=
  ⟨rfl, rfl⟩

/-- C6 amended: a non-none `clean_string` result is never empty (it may,
however, consist of whitespace only). -/
theorem clean_string_result_nonempty :
    ∀ s r : String, clean_string (.str s) = .ok (some r) → r ≠ "" :=
  fun _ _ h => (clean_string_some h).1

/-- Witness for C6 at the concrete input `"a"`. -/
theorem clean_string_result_nonempty_witness : ("a" : String) ≠ "" :=
  clean_string_result_nonempty "a" "a" rfl

/-- C7 counterexample: `clean_numeric("-12.9", "int")` returns `-12`
(truncation toward zero), not the floor `-13`. -/
theorem clean_numeric_int_not_floor :
    clean_numeric (.str "-12.9") "int" = .ok (some (.int (-12))) ∧
    (-12 : ℤ) ≠ ⌊(-129 / 10 : ℚ)⌋ :=
  ⟨by decide, by norm_num⟩

/-- C7 amended: for every string the numeric cleaner accepts, the integer
kind returns the truncation toward zero of the float-kind value (so
`"12.9" → 12` and `"-12.9" → -12`, not the floor `-13`). -/
theorem clean_numeric_int_is_trunc :
    (∀ (s : String) (q : Dec) (n : ℤ),
        clean_numeric (.str s) "float" = .ok (some (.float (.finite q))) →
        clean_numeric (.str s) "int" = .ok (some (.int n)) →
        n = pyTrunc q) ∧
    clean_numeric (.str "12.9") "int" = .ok (some (.int 12)) ∧
    clean_numeric (.str "-12.9") "int" = .ok (some (.int (-12))) := by
  refine ⟨?_, by decide, by decide⟩
  intro s q n h1 h2
  simp only [clean_numeric] at h1 h2
  split at h1
  · simp at h1
  · split at h2
    · simp at h2
    · simp only [clean_numeric_str] at h1 h2
      split at h1
      · simp at h1
      · rename_i hsent
        rw [if_neg hsent] at h2
        cases hp : parse_float (numericCleaned s) with
        | none => rw [hp] at h1; simp at h1
        | some f =>
          rw [hp] at h1 h2
          cases f with
          | finite q0 =>
            simp only [if_neg (by decide : ¬("float" = "int")), if_pos rfl,
              Except.ok.injEq, Option.some.injEq] at h1 h2
            cases h1
            cases h2
            rfl
          | nan => simp at h1
          | inf => simp at h1
          | negInf => simp at h1

/-- Witness for C7 applying the amended theorem at `"12.9"`. -/
theorem clean_numeric_int_is_trunc_witness :
    (12 : ℤ) = pyTrunc { num := 129, exp := 1 } :=
  clean_numeric_int_is_trunc.1 "12.9" { num := 129, exp := 1 } 12 (by decide) (by decide)

/-- C8: `validate_coordinates` either fails totally, returning
`(None, None)` — in particular on any pair where one side is missing,
unparsable or out of range — or returns a pair of parsed in-range finite
coordinates; and on the mixed pair `("45.0", "200.0")` it returns
`(None, None)`. -/
theorem validate_coordinates_total_or_valid :
    (∀ lat lng : PyVal,
        validate_coordinates lat lng = (Option.none, Option.none) ∨
        ∃ a b : Dec,
          validate_coordinates lat lng = (some (.finite a), some (.finite b)) ∧
          pyFloatOf lat = some (.finite a) ∧ pyFloatOf lng = some (.finite b) ∧
          (-90 : ℚ) ≤ a.toRat ∧ a.toRat ≤ 90 ∧ (-180 : ℚ) ≤ b.toRat ∧ b.toRat ≤ 180) ∧
    validate_coordinates (.str "45.0") (.str "200.0") = (Option.none, Option.none) := by
  refine ⟨?_, by decide⟩
  intro lat lng
  cases hlat : pyTruthy lat with
  | false => exact Or.inl (by simp [validate_coordinates, hlat])
  | true =>
    cases hf : pyFloatOf lat with
    | none => exact Or.inl (by simp [validate_coordinates, hlat, hf])
    | some lf =>
      cases hlng : pyTruthy lng with
      | false => exact Or.inl (by simp [validate_coordinates, hlat, hf, hlng])
      | true =>
        cases hg : pyFloatOf lng with
        | none => exact Or.inl (by simp [validate_coordinates, hlat, hf, hlng, hg])
        | some gf =>
          cases hr : (inRangeLat lf && inRangeLng gf) with
          | false =>
            exact Or.inl (by simp [validate_coordinates, hlat, hf, hlng, hg, hr])
          | true =>
            cases lf with
            | finite a =>
              cases gf with
              | finite b =>
                have hr2 := hr
                simp only [inRangeLat, inRangeLng, Bool.and_eq_true,
                  decide_eq_true_eq] at hr2
                exact Or.inr ⟨a, b,
                  by simp [validate_coordinates, hlat, hf, hlng, hg, hr],
                  rfl, rfl,
                  dec_toRat_le_of_le hr2.1.1, dec_le_toRat_of_le hr2.1.2,
                  dec_toRat_le_of_le hr2.2.1, dec_le_toRat_of_le hr2.2.2⟩
              | inf => simp [inRangeLat, inRangeLng] at hr
              | negInf => simp [inRangeLat, inRangeLng] at hr
              | nan => simp [inRangeLat, inRangeLng] at hr
            | inf => simp [inRangeLat] at hr
            | negInf => simp [inRangeLat] at hr
            | nan => simp [inRangeLat] at hr

/-- C9: in an emitted sales record, any parsed `value` — zero and negative
values included — is retained exactly as parsed (the code keeps it under an
`is not None` test, with no positivity constraint); in particular the raw
value `"-5"` is kept as `-5.0`. -/
theorem sales_value_any_real_kept :
    (∀ (row : Row) (r : SalesRecord),
        clean_ev_sales_row row = .ok (some r) →
        ∀ f, clean_numeric (pyGet row "value") "float" = .ok (some (.float f)) →
          r.value = some f) ∧
    clean_ev_sales_data [salesNegRow] = .ok [salesNegRecord] ∧
    salesNegRecord.value = some (.finite { num := -5, exp := 0 }) := by
  refine ⟨?_, by decide, rfl⟩
  intro row r h f hv
  simp only [clean_ev_sales_row] at h
  split at h
  · simp at h
  · simp at h
  · split at h
    · simp at h
    · simp at h
    · split at h
      · simp at h
      · split at h
        · simp at h
        · rename_i hval
          split at h
          · simp at h
          · split at h
            · simp at h
            · split at h
              · simp at h
              · rw [hval] at hv
                simp only [Except.ok.injEq, Option.some.injEq] at hv h
                subst hv
                subst h
                rfl

/-- Witness for C9 at the concrete row with value `"-5"`. -/
theorem sales_value_any_real_kept_witness :
    salesNegRecord.value = some (PyFloat.finite { num := -5, exp := 0 }) := by
  have := sales_value_any_real_kept.1 salesNegRow salesNegRecord (by decide)
    (.finite { num := -5, exp := 0 }) (by decide)
  exact this

/-- C10: in an emitted charging-station record, a raw `is_fast_dc` present as
the empty string yields `is_fast_dc = false` (the key is set), while every
other optional field whose raw value is empty leaves its key absent. -/
theorem charging_empty_is_fast_dc_false :
    ∀ (row : Row) (r : ChargingRecord),
      clean_charging_stations_row row = .ok (some r) →
      (pyGet row "is_fast_dc" = .str "" → r.is_fast_dc = some false) ∧
      (pyGet row "city" = .str "" → r.city = Option.none) ∧
      (pyGet row "power_kw" = .str "" → pyGet row "power" = .none →
        r.power_kw = Option.none) ∧
      (pyGet row "ports" = .str "" → r.ports = Option.none) ∧
      (pyGet row "power_class" = .str "" → r.power_class = Option.none) ∧
      (pyGet row "connector_type" = .str "" → r.connector_type = Option.none) ∧
      (pyGet row "network" = .str "" → pyGet row "operator" = .none →
        r.network = Option.none) ∧
      (pyGet row "status" = .str "" → r.status = Option.none) := by
  intro row r h
  simp only [clean_charging_stations_row] at h
  split at h
  · rename_i lat lng heq
    split at h
    · simp at h
    · simp at h
    · split at h
      · simp at h
      · rename_i hcity
        split at h
        · simp at h
        · rename_i hpower
          split at h
          · simp at h
          · rename_i hports
            split at h
            · simp at h
            · rename_i hpclass
              split at h
              · simp at h
              · rename_i hconn
                split at h
                · simp at h
                · rename_i hnet
                  split at h
                  · simp at h
                  · rename_i hstatus
                    simp only [Except.ok.injEq, Option.some.injEq] at h
                    subst h
                    refine ⟨?_, ?_, ?_, ?_, ?_, ?_, ?_, ?_⟩
                    · intro hfast
                      simp [hfast, fastDcOf, pyUpper]
                    · intro he
                      rw [he] at hcity
                      simp [clean_string] at hcity
                      simp [← hcity]
                    · intro he hp
                      rw [he, hp] at hpower
                      simp [pyOr, pyTruthy, clean_numeric] at hpower
                      simp [← hpower]
                    · intro he
                      rw [he] at hports
                      simp [clean_numeric, pyTruthy] at hports
                      simp [← hports]
                    · intro he
                      rw [he] at hpclass
                      simp [clean_string] at hpclass
                      simp [← hpclass]
                    · intro he
                      rw [he] at hconn
                      simp [clean_string] at hconn
                      simp [← hconn]
                    · intro he hp
                      rw [he, hp] at hnet
                      simp [pyOr, pyTruthy, clean_string] at hnet
                      simp [← hnet]
                    · intro he
                      rw [he] at hstatus
                      simp [clean_string] at hstatus
                      simp [← hstatus]
  · simp at h

/-- Witness for C10 at a concrete row whose optional fields are all empty
strings. -/
theorem charging_empty_is_fast_dc_false_witness :
    chargingExampleRecord.is_fast_dc = some false ∧
    chargingExampleRecord.city = Option.none ∧
    chargingExampleRecord.ports = Option.none := by
  have := charging_empty_is_fast_dc_false chargingExampleRow
    chargingExampleRecord (by decide)
  exact ⟨this.1 (by decide), this.2.1 (by decide), this.2.2.2.1 (by decide)⟩

/-- C2 counterexample: on the sample `["inf"]` — which Python's `float()`
does parse — `guess_column_type` returns no type at all: `int(float('inf'))`
raises an uncaught `OverflowError`, so the claimed case analysis fails. -/
theorem guess_column_type_inf_counterexample :
    guess_column_type ["inf"] = .error .overflowError ∧
    spec_guess_column_type ["inf"] = "VARCHAR(100)" :=
  ⟨by decide, by decide⟩

/-- C2 amended: provided no checked sample value parses to an infinity (on
which the code raises an uncaught `OverflowError`), and counting a value
that parses to NaN as non-numeric (its `int()` `ValueError` is caught),
`guess_column_type` returns exactly the type described by the claim:
`TEXT` on an empty sample, `DECIMAL(15,4)`/`INTEGER` when the first 20
non-empty values are all numeric (decimal when one carries a `'.'` or a
fractional part), and a length-bucketed `VARCHAR`/`TEXT` otherwise; e.g.
`["1","2","3.5"]` infers `DECIMAL(15,4)` and `["1","2","3"]` `INTEGER`. -/
theorem guess_column_type_matches_spec :
    (∀ values : List String,
        (∀ v ∈ (nonEmptyValues values).take 20,
          parse_float v ≠ some .inf ∧ parse_float v ≠ some .negInf) →
        guess_column_type values = .ok (spec_guess_column_type values)) ∧
    guess_column_type ["1", "2", "3.5"] = .ok "DECIMAL(15,4)" ∧
    guess_column_type ["1", "2", "3"] = .ok "INTEGER" := by
  refine ⟨?_, by decide, by decide⟩
  intro values hinf
  simp only [guess_column_type, spec_guess_column_type]
  by_cases hne : nonEmptyValues values = []
  · simp [hne]
  · rw [if_neg hne, if_neg hne]
    obtain ⟨b, hb1, hb2⟩ := guess_check_spec _ hinf false
    rw [hb1]
    by_cases hall : ((nonEmptyValues values).take 20).all parsesFinite = true
    · rw [hb2 hall, hall]
      simp
    · rw [Bool.not_eq_true] at hall
      rw [hall]
      simp

/-- Witness for C2 applying the amended theorem at `["1","2","3.5"]`. -/
theorem guess_column_type_matches_spec_witness :
    guess_column_type ["1", "2", "3.5"] = .ok (spec_guess_column_type ["1", "2", "3.5"]) :=
  guess_column_type_matches_spec.1 ["1", "2", "3.5"] (by decide)

/-- C1 counterexample: the row
`{make: "tesla", model: "Model 3", state: "WA", model_year: "inf"}` satisfies
the claimed acceptance condition (make, model and state all clean
successfully), yet the cleaner emits nothing at all: processing the year
field raises an uncaught `OverflowError`, so emission is not equivalent to
the acceptance predicate. -/
theorem population_emits_iff_counterexample :
    clean_ev_population_data [vehicleInfRow] = .error .overflowError ∧
    standardize_make (vehicleMakeField vehicleInfRow) = .ok (some "Tesla") ∧
    clean_string (vehicleModelField vehicleInfRow) = .ok (some "Model 3") ∧
    clean_string (vehicleStateField vehicleInfRow) = .ok (some "WA") :=
  ⟨by decide, by decide, by decide, by decide⟩

/-- C1 amended: whenever cleaning a raw vehicle row raises no exception (no
int-kind numeric field parses to an infinity), a normalized record is
emitted if and only if `standardize_make` on the make field and
`clean_string` on the model field both return a value and at least one of
the state/city fields cleans to a non-none string; and the example row
`{make: "tesla", model: "Model 3", state: "WA", model_year: "2021"}` yields
exactly one record with `make="Tesla"`, `model="Model 3"`, `state="WA"`,
`model_year=2021`. -/
theorem population_emits_iff :
    (∀ (row : Row) (res : Option VehicleRecord),
        clean_ev_population_row row = .ok res →
        (res.isSome ↔
          ((exOpt (standardize_make (vehicleMakeField row))).isSome ∧
           (exOpt (clean_string (vehicleModelField row))).isSome ∧
           ((exOpt (clean_string (vehicleStateField row))).isSome ∨
            (exOpt (clean_string (vehicleCityField row))).isSome)))) ∧
    clean_ev_population_data [vehicleExampleRow] = .ok [vehicleExampleRecord] := by
  refine ⟨?_, by decide⟩
  intro row res h
  simp only [clean_ev_population_row] at h
  split at h
  · simp at h
  · rename_i mk hmk
    split at h
    · simp at h
    · rename_i md hmd
      rw [hmk, hmd]
      split at h
      · rename_i make model
        split at h
        · simp at h
        · rename_i year hyear
          split at h
          · simp at h
          · rename_i evt hevt
            split at h
            · simp at h
            · rename_i rng hrng
              split at h
              · simp at h
              · rename_i price hprice
                split at h
                · simp at h
                · rename_i st hst
                  split at h
                  · simp at h
                  · rename_i ct hct
                    split at h
                    · simp at h
                    · rename_i cty hcty
                      split at h
                      · simp at h
                      · rename_i vin hvin
                        rw [hst, hct]
                        split at h
                        · rename_i hcond
                          injection h with h2
                          subst h2
                          simp only [exOpt, Option.isSome_some, true_iff, true_and]
                          simp only [Bool.and_eq_true, Bool.or_eq_true] at hcond
                          rcases hcond.2 with h1 | h1
                          · left
                            rw [clean_string_optTruthy hst] at h1
                            simpa using h1
                          · right
                            rw [clean_string_optTruthy hct] at h1
                            simpa using h1
                        · rename_i hcond
                          injection h with h2
                          subst h2
                          constructor
                          · intro hh
                            simp at hh
                          · rintro ⟨h1, h2, hsc⟩
                            exfalso
                            apply hcond
                            have hmake : (!(make == "")) = true := by
                              simpa using standardize_make_some hmk
                            have hmodel : (!(model == "")) = true := by
                              simpa using (clean_string_some hmd).1
                            rw [hmake, hmodel, clean_string_optTruthy hst,
                              clean_string_optTruthy hct]
                            simp only [Bool.true_and, Bool.or_eq_true]
                            simpa [exOpt] using hsc
      · rename_i hcatch
        injection h with h2
        subst h2
        constructor
        · intro hh
          simp at hh
        · rintro ⟨h1, h2, -⟩
          exfalso
          simp only [exOpt] at h1 h2
          cases mk with
          | none => simp at h1
          | some a =>
            cases md with
            | none => simp at h2
            | some b => exact hcatch a b rfl rfl

/-- Witness for C1 applying the amended equivalence at the example row. -/
theorem population_emits_iff_witness :
    (some vehicleExampleRecord).isSome ↔
      ((exOpt (standardize_make (vehicleMakeField vehicleExampleRow))).isSome ∧
       (exOpt (clean_string (vehicleModelField vehicleExampleRow))).isSome ∧
       ((exOpt (clean_string (vehicleStateField vehicleExampleRow))).isSome ∨
        (exOpt (clean_string (vehicleCityField vehicleExampleRow))).isSome)) :=
  population_emits_iff.1 vehicleExampleRow (some vehicleExampleRecord) (by decide)

/-- C3 counterexample: cleaning is not idempotent — the sales cleaner
produces a record with `value = 0.0` from the raw value `"0"`, but
re-cleaning that record drops the value key, because `clean_numeric(0.0)`
hits the Python falsiness test `if not value` and returns `None`. -/
theorem sales_idempotence_counterexample :
    clean_ev_sales_data [salesZeroRawRow] = .ok [salesZeroRecord] ∧
    clean_ev_sales_data [sales_record_to_row salesZeroRecord] = .ok [salesZeroRecleaned] ∧
    salesZeroRecleaned ≠ salesZeroRecord :=
  ⟨by decide, by decide, by decide⟩

/-- C3 amended: for every dataset kind, re-cleaning an emitted record (read
back under the same canonical field names) yields it unchanged, provided the
record's fields are stable under their field cleaners: every string field
stripped and not a null sentinel (automatic unless control characters were
removed from its raw form), the vehicle make additionally control-free and a
fixed point of the standardization map, the charging country code
additionally control-free and upper-case-stable, the charging coordinates
non-zero (a latitude or longitude of `0.0` is falsy and would drop the
station), and the sales `value` — if present — neither `0.0` (dropped by
Python falsiness on re-cleaning, the case the counterexample exhibits) nor
`nan`. -/
theorem cleaning_reclean_stable :
    (∀ (row : Row) (r : VehicleRecord),
      clean_ev_population_row row = .ok (some r) →
      stableStr r.make → removeCtl r.make = r.make →
      (List.lookup (pyLower r.make) makeMap).getD (pyTitle r.make) = r.make →
      stableStr r.model →
      stableOptStr r.electric_vehicle_type →
      stableOptStr r.state → stableOptStr r.city →
      stableOptStr r.county → stableOptStr r.vin_1_10 →
      clean_ev_population_row (vehicle_record_to_row r) = .ok (some r)) ∧
    (∀ (row : Row) (r : ChargingRecord),
      clean_charging_stations_row row = .ok (some r) →
      stableStr r.country_code → removeCtl r.country_code = r.country_code →
      pyUpper r.country_code = r.country_code →
      pyTruthy (.float r.latitude) = true → pyTruthy (.float r.longitude) = true →
      stableOptStr r.city → stableOptStr r.power_class →
      stableOptStr r.connector_type → stableOptStr r.network →
      stableOptStr r.status →
      clean_charging_stations_row (charging_record_to_row r) = .ok (some r)) ∧
    (∀ (row : Row) (r : SalesRecord),
      clean_ev_sales_row row = .ok (some r) →
      stableStr r.region →
      stableOptStr r.parameter → stableOptStr r.unit →
      stableOptStr r.mode → stableOptStr r.powertrain →
      (∀ d : Dec, r.value = some (.finite d) → d.num ≠ 0) →
      r.value ≠ some .nan →
      clean_ev_sales_row (sales_record_to_row r) = .ok (some r)) := by
  refine ⟨?_, ?_, ?_⟩
  · -- vehicle kind
    intro row r h hmkS hmkC hmkM hmdS hevS hstS hctS hcyS hvnS
    simp only [clean_ev_population_row] at h
    split at h
    · simp at h
    · rename_i mk hmk
      split at h
      · simp at h
      · rename_i md hmd
        split at h
        · rename_i make model
          split at h
          · simp at h
          · rename_i year hyear
            split at h
            · simp at h
            · rename_i evt hevt
              split at h
              · simp at h
              · rename_i rng hrng
                split at h
                · simp at h
                · rename_i price hprice
                  split at h
                  · simp at h
                  · rename_i st hst
                    split at h
                    · simp at h
                    · rename_i ct hct
                      split at h
                      · simp at h
                      · rename_i cty hcty
                        split at h
                        · simp at h
                        · rename_i vin hvin
                          split at h
                          · rename_i hcond
                            injection h with h2
                            injection h2 with h3
                            subst h3
                            have hmakeNe : make ≠ "" := standardize_make_some hmk
                            have hmdF := clean_string_some hmd
                            have hyrF : ∀ y, year = some y → 1990 ≤ y ∧ y ≤ 2030 := by
                              intro y hy
                              rw [hy] at hyear
                              exact clean_year_some hyear
                            have hevW : ∀ p, evt = some p → p ≠ "" ∧ removeCtl p = p := by
                              intro p hp
                              rw [hp] at hevt
                              exact clean_string_some hevt
                            have hstW : ∀ p, st = some p → p ≠ "" ∧ removeCtl p = p := by
                              intro p hp
                              rw [hp] at hst
                              exact clean_string_some hst
                            have hctW : ∀ p, ct = some p → p ≠ "" ∧ removeCtl p = p := by
                              intro p hp
                              rw [hp] at hct
                              exact clean_string_some hct
                            have hcyW : ∀ p, cty = some p → p ≠ "" ∧ removeCtl p = p := by
                              intro p hp
                              rw [hp] at hcty
                              exact clean_string_some hcty
                            have hrgP : ∀ n, (match rng with
                                | some (PyVal.int m) =>
                                  if m ≠ 0 ∧ 0 < m then some m else Option.none
                                | _ => Option.none) = some n → n ≠ 0 ∧ 0 < n := by
                              intro n hn
                              cases rng with
                              | none => simp at hn
                              | some pv =>
                                cases pv with
                                | int m =>
                                  simp only [] at hn
                                  split at hn
                                  · rename_i hc
                                    cases hn
                                    exact hc
                                  · simp at hn
                                | str a => simp at hn
                                | float a => simp at hn
                                | bool a => simp at hn
                                | none => simp at hn
                            have hmsP : ∀ f, (match price with
                                | some (PyVal.float g) =>
                                  if (pyTruthy (PyVal.float g) && pyGtZero g) = true
                                  then some g else Option.none
                                | _ => Option.none) = some f →
                                pyTruthy (.float f) = true ∧ pyGtZero f = true := by
                              intro f hn
                              cases price with
                              | none => simp at hn
                              | some pv =>
                                cases pv with
                                | float g =>
                                  simp only [] at hn
                                  split at hn
                                  · rename_i hc
                                    cases hn
                                    simpa [Bool.and_eq_true] using hc
                                  · simp at hn
                                | str a => simp at hn
                                | int a => simp at hn
                                | bool a => simp at hn
                                | none => simp at hn
                            have hvnW : ∀ p, (match vin with
                                | some v => if 10 ≤ v.length then some v else Option.none
                                | Option.none => Option.none) = some p →
                                p ≠ "" ∧ removeCtl p = p := by
                              intro p hp
                              cases vin with
                              | none => simp at hp
                              | some w =>
                                simp only [] at hp
                                split at hp
                                · cases hp
                                  exact clean_string_some hvin
                                · simp at hp
                            have hvnL : ∀ v, (match vin with
                                | some w => if 10 ≤ w.length then some w else Option.none
                                | Option.none => Option.none) = some v → 10 ≤ v.length := by
                              intro v hp
                              cases vin with
                              | none => simp at hp
                              | some w =>
                                simp only [] at hp
                                split at hp
                                · rename_i hc
                                  cases hp
                                  exact hc
                                · simp at hp
                            simp only [Bool.and_eq_true] at hcond
                            exact vehicle_reclean_core _ hmkS hmkC hmkM hmdS hevS hstS
                              hctS hcyS hvnS hmakeNe hmdF hyrF hevW hrgP hmsP hstW
                              hctW hcyW hvnW hvnL hcond.2
                          · simp at h
        · simp at h
  · -- charging kind
    intro row r h hccS hccC hccU hla hlo hciS hpcS hcoS hnwS hst2
    simp only [clean_charging_stations_row] at h
    split at h
    · rename_i lat lng heq
      split at h
      · simp at h
      · simp at h
      · rename_i c0 hcc
        split at h
        · simp at h
        · rename_i city hcity
          split at h
          · simp at h
          · rename_i power hpower
            split at h
            · simp at h
            · rename_i ports hports
              split at h
              · simp at h
              · rename_i pclass hpclass
                split at h
                · simp at h
                · rename_i conn hconn
                  split at h
                  · simp at h
                  · rename_i net hnet
                    split at h
                    · simp at h
                    · rename_i stat hstatus
                      injection h with h2
                      injection h2 with h3
                      subst h3
                      have hval := validate_some heq
                      have hccNe : pyUpper c0 ≠ "" :=
                        pyUpper_ne_empty (clean_string_some hcc).1
                      have hciW : ∀ p, city = some p → p ≠ "" ∧ removeCtl p = p := by
                        intro p hp
                        rw [hp] at hcity
                        exact clean_string_some hcity
                      have hpcW : ∀ p, pclass = some p → p ≠ "" ∧ removeCtl p = p := by
                        intro p hp
                        rw [hp] at hpclass
                        exact clean_string_some hpclass
                      have hcoW : ∀ p, conn = some p → p ≠ "" ∧ removeCtl p = p := by
                        intro p hp
                        rw [hp] at hconn
                        exact clean_string_some hconn
                      have hnwW : ∀ p, net = some p → p ≠ "" ∧ removeCtl p = p := by
                        intro p hp
                        rw [hp] at hnet
                        exact clean_string_some hnet
                      have hstW2 : ∀ p, stat = some p → p ≠ "" ∧ removeCtl p = p := by
                        intro p hp
                        rw [hp] at hstatus
                        exact clean_string_some hstatus
                      have hpkP : ∀ f, (match power with
                          | some (PyVal.float g) =>
                            if (pyTruthy (PyVal.float g) && pyGtZero g) = true
                            then some g else Option.none
                          | _ => Option.none) = some f →
                          pyTruthy (.float f) = true ∧ pyGtZero f = true := by
                        intro f hn
                        cases power with
                        | none => simp at hn
                        | some pv =>
                          cases pv with
                          | float g =>
                            simp only [] at hn
                            split at hn
                            · rename_i hc
                              cases hn
                              simpa [Bool.and_eq_true] using hc
                            · simp at hn
                          | str a => simp at hn
                          | int a => simp at hn
                          | bool a => simp at hn
                          | none => simp at hn
                      have hptP : ∀ n, (match ports with
                          | some (PyVal.int m) =>
                            if m ≠ 0 ∧ 0 < m then some m else Option.none
                          | _ => Option.none) = some n → n ≠ 0 ∧ 0 < n := by
                        intro n hn
                        cases ports with
                        | none => simp at hn
                        | some pv =>
                          cases pv with
                          | int m =>
                            simp only [] at hn
                            split at hn
                            · rename_i hc
                              cases hn
                              exact hc
                            · simp at hn
                          | str a => simp at hn
                          | float a => simp at hn
                          | bool a => simp at hn
                          | none => simp at hn
                      exact charging_reclean_core _ hccS hccC hccU hla hlo hciS hpcS
                        hcoS hnwS hst2 hval.1 hval.2.1 hccNe hciW hpcW hcoW hnwW
                        hstW2 hpkP hptP
    · simp at h
  · -- sales kind
    intro row r h hregS hparS hunS hmoS hptS hv0 hvn
    simp only [clean_ev_sales_row] at h
    split at h
    · simp at h
    · simp at h
    · rename_i region0 hre
      split at h
      · simp at h
      · simp at h
      · rename_i year0 hyr
        split at h
        · simp at h
        · rename_i parm hparm
          split at h
          · simp at h
          · rename_i value0 hval
            split at h
            · simp at h
            · rename_i unitv huni
              split at h
              · simp at h
              · rename_i modev hmod
                split at h
                · simp at h
                · rename_i ptv hptv
                  injection h with h2
                  injection h2 with h3
                  subst h3
                  exact sales_reclean_core _ hregS hparS hunS hmoS hptS
                    (clean_string_some hre) (clean_year_some hyr)
                    (fun p hp => clean_string_some (by
                      have hp2 : parm = some p := hp
                      rw [hp2] at hparm
                      exact hparm))
                    (fun p hp => clean_string_some (by
                      have hp2 : unitv = some p := hp
                      rw [hp2] at huni
                      exact huni))
                    (fun p hp => clean_string_some (by
                      have hp2 : modev = some p := hp
                      rw [hp2] at hmod
                      exact hmod))
                    (fun p hp => clean_string_some (by
                      have hp2 : ptv = some p := hp
                      rw [hp2] at hptv
                      exact hptv))
                    hv0 hvn

/-- Witness for C3 applying the amended round trip to a concrete emitted
record of each kind. -/
theorem cleaning_reclean_stable_witness :
    clean_ev_population_row (vehicle_record_to_row vehicleExampleRecord)
      = .ok (some vehicleExampleRecord) ∧
    clean_charging_stations_row (charging_record_to_row chargingExampleRecord)
      = .ok (some chargingExampleRecord) ∧
    clean_ev_sales_row (sales_record_to_row salesNegRecord)
      = .ok (some salesNegRecord) :=
  ⟨cleaning_reclean_stable.1 vehicleExampleRow vehicleExampleRecord (by decide)
      ⟨by decide, by decide⟩ (by decide) (by decide) ⟨by decide, by decide⟩
      (by trivial) ⟨by decide, by decide⟩ (by trivial) (by trivial) (by trivial),
   cleaning_reclean_stable.2.1 chargingExampleRow chargingExampleRecord (by decide)
      ⟨by decide, by decide⟩ (by decide) (by decide) (by decide) (by decide)
      (by trivial) (by trivial) (by trivial) (by trivial) (by trivial),
   cleaning_reclean_stable.2.2 salesNegRow salesNegRecord (by decide)
      ⟨by decide, by decide⟩
      (by trivial) (by trivial) (by trivial) (by trivial)
      (by
        intro d hd
        simp only [salesNegRecord, Option.some.injEq, PyFloat.finite.injEq] at hd
        rw [← hd]
        decide)
      (by decide)⟩

end EVData
